import Mathlib

/-!
Verification of the executive loop of the sprocketnes emulator.

The repository source given is src/src/lib.rs: the statistics scaffolding
(struct Stats, fn record_fps, lines 48–227) and the executive loop
(fn start_emulator, lines 229–367).  The CPU, PPU, APU, graphics, audio and
input modules are collaborators declared but not contained in the given
sources; they are modelled as oracle functions gathered in a `Machine`
record, with any behaviour that a claim depends on modelled from the spec
(see the individual doc comments).  The loop body itself is translated
statement by statement; every call into a collaborator is also recorded as
an event so that ordering and occurrence properties can be stated about one
iteration's event trace.

Modelling conventions: Rust u16 becomes Nat, f64 time stamps become Rat,
HashSet becomes a list with dedup insertion (only emptiness and membership
are ever observed), Vec becomes a list, a Rust panic (assert! failure or
Result::unwrap on an Err) becomes the iteration outcome `Outcome.panicked`
which stops the iteration exactly where the panic unwinds, and `break`
becomes `Outcome.exited`.
-/

set_option linter.unusedVariables false

namespace SprocketNes

/-- Result record returned by the PPU step call (src/src/lib.rs lines 282 and
289; spec section 4.3 gives its three fields). -/
structure PpuResult where
  vblank_nmi : Bool
  scanline_irq : Bool
  new_frame : Bool
deriving DecidableEq, Repr

/-- Result of polling the input sink, src/src/lib.rs line 327 (spec section 6:
check_input returns one of Continue, Quit, SaveState, LoadState). -/
inductive InputResult where
  | Continue
  | Quit
  | SaveState
  | LoadState
deriving DecidableEq, Repr

/-- Modelled from the spec: the gamepad state behind cpu.mem.input.gamepad_0.
The input module is not part of the given sources; spec section 6 lists the
eight buttons (A, B, Select, Start, Up, Down, Left, Right).  The loop reads
and writes the start and right fields and clones the whole record
(src/src/lib.rs lines 343–349); Rust Clone on this plain record is a
field-by-field copy. -/
structure GamePad where
  a : Bool
  b : Bool
  select : Bool
  start : Bool
  up : Bool
  down : Bool
  left : Bool
  right : Bool
deriving DecidableEq, Repr

/-- The loop-visible core of one NES instance: the cycle counter cy and the
conditional_jump flag exposed by the CPU (src/src/lib.rs lines 272 and 282),
the gamepad state behind cpu.mem.input.gamepad_0 (lines 343–349), and an
opaque component `core` covering everything else (CPU registers, RAM, PPU,
APU, mapper and input internals), of a type parameter σ. -/
structure CoreView (σ : Type) where
  cy : Nat
  conditional_jump : Bool
  gamepad0 : GamePad
  core : σ
deriving DecidableEq

/-- Modelled from the spec: the effect of one cpu.step() call (spec section
4.2: step "executes exactly one instruction, updating registers and advancing
the cycle counter", and "every read/write ... is also recorded into the trace
buffers").  The effect is a function of the current core view alone; `bt`,
`bnt`, `ld`, `st` are the records this step appends to the branches-taken,
branches-not-taken, load and store trace buffers. -/
structure StepEff (σ : Type) where
  view : CoreView σ
  bt : List (Nat × Nat)
  bnt : List (Nat × Nat)
  ld : List (Char × Nat)
  st : List (Char × Nat)

/-- One NES instance as the executive loop sees it: the core view plus the
four trace buffers the loop swaps out on each new frame (src/src/lib.rs
lines 310–314 and 356–360). -/
structure Cpu (σ : Type) where
  view : CoreView σ
  branches_taken : List (Nat × Nat)
  branches_not_taken : List (Nat × Nat)
  loads : List (Char × Nat)
  stores : List (Char × Nat)

/-- Statistics record, src/src/lib.rs lines 48–68.  u16 is modelled as Nat,
the f64 time stamp as Rat, Vec as a list and HashSet as a list with dedup
insertion.  The field defaults mirror `#[derive(Default)]`. -/
structure Stats where
  last_time : Rat := 0
  frames : Nat := 0
  conditional_jumps : Nat := 0
  conditional_jumps_s : Nat := 0
  steps : Nat := 0
  steps_s : Nat := 0
  branches_taken : List (Nat × Nat) := []
  branches_not_taken : List (Nat × Nat) := []
  addrs_visited : List (Nat × Nat) := []
  addrs_not_visited : List (Nat × Nat) := []
  addrs_visited_old : List (Nat × Nat) := []
  addrs_not_visited_old : List (Nat × Nat) := []
  loads : List (Char × Nat) := []
  stores : List (Char × Nat) := []
  memory_reads : List Nat := []
  memory_reads_old : List Nat := []
  memory_writes : List Nat := []
  memory_writes_old : List Nat := []
deriving DecidableEq, Repr

/-- Stats::new, src/src/lib.rs lines 70–77: all fields default except
last_time, which is set to the current host time. -/
def Stats.new (t : Rat) : Stats := { last_time := t }

/-- Outcome of invoking cpu.mem.input.check_input() (src/src/lib.rs line
327): the returned InputResult plus the updated input internals, gamepad
state and host world. -/
structure InputPoll (σ ω : Type) where
  result : InputResult
  core : σ
  gamepad0 : GamePad
  world : ω

/-- Modelled from the spec: the collaborators the executive loop calls into,
as oracle functions.  σ is the opaque per-NES component state, γ one graphics
sink's state, ω the host world (time source, SDL input events, filesystem).
cpuStepF is the effect of cpu.step() (spec section 4.2); nmiF and irqF are
cpu.nmi() / cpu.irq() (they may touch registers and the cycle counter);
ppuStepF is ppu.step(cy) returning the PpuResult (spec section 4.3); apuStepF
is apu.step(cy) and playChannelsF is apu.play_channels() (spec section 4.4);
gfxTickF, gfxCompositeF (which receives mutable access to the framebuffer
inside the core) and statusLineSetF form the graphics sink (spec section 6);
nowF reads the host clock (a pure observation of ω); checkInputF polls the
input sink; fileCreateF and fileOpenF attempt File::create / File::open on
"state.sav" and report success; saveF and loadF are cpu.save / cpu.load on an
open file.  initView0 and initView1 are the two NES instances as constructed
and reset in src/src/lib.rs lines 241–255, initGfx, initGfx1 and initWorld
the remaining initial collaborator states. -/
structure Machine (σ γ ω : Type) where
  cpuStepF : CoreView σ → StepEff σ
  nmiF : CoreView σ → CoreView σ
  irqF : CoreView σ → CoreView σ
  ppuStepF : Nat → σ → PpuResult × σ
  apuStepF : Nat → σ → σ
  playChannelsF : σ → σ
  gfxTickF : γ → γ
  gfxCompositeF : γ → σ → γ × σ
  statusLineSetF : String → γ → γ
  nowF : ω → Rat
  checkInputF : σ → GamePad → ω → InputPoll σ ω
  fileCreateF : ω → Bool × ω
  fileOpenF : ω → Bool × ω
  saveF : CoreView σ → ω → ω
  loadF : ω → CoreView σ → CoreView σ
  initView0 : CoreView σ
  initView1 : CoreView σ
  initGfx : γ
  initGfx1 : γ
  initWorld : ω

/-- Events recorded for the collaborator calls made by one loop iteration.
The Nat index says which NES instance (0 for cpu/gfx, 1 for cpu1/gfx1).
ppuStep carries the cy argument passed and the PpuResult returned; apuStep
carries the cy argument; checkInput carries the returned InputResult;
fileCreate and fileOpen carry whether the file operation succeeded;
panicEv marks the point where a Rust panic unwinds and breakEv the point
where `break` leaves the loop. -/
inductive Ev where
  | cpuStep (i : Nat)
  | ppuStep (i : Nat) (cy : Nat) (r : PpuResult)
  | nmi (i : Nat)
  | irq (i : Nat)
  | apuStep (i : Nat) (cy : Nat)
  | gfxTick (i : Nat)
  | gfxComposite (i : Nat)
  | recordFps (i : Nat)
  | playChannels (i : Nat)
  | checkInput (r : InputResult)
  | fileCreate (ok : Bool)
  | fileOpen (ok : Bool)
  | cpuSave (i : Nat)
  | cpuLoad (i : Nat)
  | statusSet (i : Nat) (text : String)
  | panicEv
  | breakEv
deriving DecidableEq, Repr

/-- How one loop iteration ends: fall through to the next iteration, leave
the loop through `break` (line 329), or abort through a Rust panic (a failed
assert! in record_fps or a failed unwrap on File::create / File::open). -/
inductive Outcome where
  | next
  | exited
  | panicked
deriving DecidableEq, Repr

/-- The mutable state of start_emulator at the top of the loop: the two NES
instances, their statistics records, the started flag (src/src/lib.rs line
260), the two graphics sinks and the host world. -/
structure LoopState (σ γ ω : Type) where
  cpu : Cpu σ
  cpu1 : Cpu σ
  stats : Stats
  stats1 : Stats
  started : Bool
  gfx : γ
  gfx1 : γ
  world : ω

/-- Result of executing one loop iteration (or one sub-block of it): the
state afterwards, the events emitted, and how it ended. -/
structure IterOut (σ γ ω : Type) where
  state : LoopState σ γ ω
  events : List Ev
  outcome : Outcome

/-- cpu.step() seen from the loop: the core view evolves by the oracle and
the step's trace records are appended to the trace buffers (spec section
4.2; see `StepEff`). -/
def Cpu.step (M : Machine σ γ ω) (c : Cpu σ) : Cpu σ :=
  let e := M.cpuStepF c.view
  { view := e.view
    branches_taken := c.branches_taken ++ e.bt
    branches_not_taken := c.branches_not_taken ++ e.bnt
    loads := c.loads ++ e.ld
    stores := c.stores ++ e.st }

/-- Lines 266–280 of src/src/lib.rs for one Stats record: the step counters
always increase and the conditional-jump counters increase when the CPU
reported a conditional jump this step. -/
def bumpCounters (stats : Stats) (cj : Bool) : Stats :=
  let stats := { stats with steps := stats.steps + 1, steps_s := stats.steps_s + 1 }
  if cj then
    { stats with conditional_jumps := stats.conditional_jumps + 1,
                 conditional_jumps_s := stats.conditional_jumps_s + 1 }
  else stats

/-- HashSet::extend modelled on lists: insert each element not already
present. -/
def hsExtend [DecidableEq α] (s : List α) (xs : List α) : List α :=
  xs.foldl (fun acc x => if x ∈ acc then acc else acc ++ [x]) s

/-- record_fps, src/src/lib.rs lines 79–227, modelled on one Stats record.
The now argument is the f64 time stamp (modelled as Rat).  The string and
print parameters of the source are omitted: they only feed println! calls
that are all dead (each is guarded by a condition containing `!true`), as is
the early return on line 80 and as are the two `if true` guards, which are
kept here as the corresponding literal conditions.  The four assert! calls
(lines 85, 86, 120, 124) are modelled by returning none (a panic) when their
condition fails, in source order.  The result some gives the Stats record at
return. -/
def record_fps (stats : Stats) (now : Rat) : Option Stats :=
  if !true then some stats
  else
  if true then
    if stats.addrs_visited ≠ [] then none
    else if stats.addrs_not_visited ≠ [] then none
    else
    let stats := { stats with
      addrs_visited := hsExtend stats.addrs_visited stats.branches_taken,
      addrs_not_visited := hsExtend stats.addrs_not_visited stats.branches_not_taken }
    if true then
      if stats.memory_reads ≠ [] then none
      else
      let loads := hsExtend [] (stats.loads.map Prod.snd)
      let stats := { stats with memory_reads := hsExtend stats.memory_reads loads }
      if stats.memory_writes ≠ [] then none
      else
      let stores := hsExtend [] (stats.stores.map Prod.snd)
      let stats := { stats with memory_writes := hsExtend stats.memory_writes stores }
      let stats :=
        if now ≥ stats.last_time + 1 then
          { stats with frames := 0, conditional_jumps_s := 0, steps_s := 0, last_time := now }
        else
          { stats with frames := stats.frames + 1 }
      some { stats with
        branches_taken := [],
        branches_not_taken := [],
        addrs_visited_old := stats.addrs_visited, addrs_visited := [],
        addrs_not_visited_old := stats.addrs_not_visited, addrs_not_visited := [],
        loads := [], stores := [],
        memory_reads_old := stats.memory_reads, memory_reads := [],
        memory_writes_old := stats.memory_writes, memory_writes := [] }
    else some stats
  else some stats

/-- Lines 310–314 (and 356–360) of src/src/lib.rs: std::mem::swap exchanges
the four trace buffers between a Stats record and a Cpu. -/
def swapBuffers (stats : Stats) (c : Cpu σ) : Stats × Cpu σ :=
  ( { stats with branches_taken := c.branches_taken,
                 branches_not_taken := c.branches_not_taken,
                 stores := c.stores,
                 loads := c.loads },
    { c with branches_taken := stats.branches_taken,
             branches_not_taken := stats.branches_not_taken,
             stores := stats.stores,
             loads := stats.loads } )

/-- Result of the PPU step plus interrupt dispatch for one NES instance. -/
structure PpuOut (σ : Type) where
  cpu : Cpu σ
  result : PpuResult
  events : List Ev

/-- Lines 282–287 (i = 0) and 289–294 (i = 1) of src/src/lib.rs: the PPU is
stepped with the CPU's current cycle counter, then the interrupt reported by
the result is dispatched: nmi if vblank_nmi, else irq if scanline_irq, else
nothing. -/
def ppuAndInterrupts (M : Machine σ γ ω) (i : Nat) (c : Cpu σ) : PpuOut σ :=
  let p := M.ppuStepF c.view.cy c.view.core
  let r := p.1
  let c2 : Cpu σ := { c with view := { c.view with core := p.2 } }
  if r.vblank_nmi then
    { cpu := { c2 with view := M.nmiF c2.view }, result := r,
      events := [Ev.ppuStep i c.view.cy r, Ev.nmi i] }
  else if r.scanline_irq then
    { cpu := { c2 with view := M.irqF c2.view }, result := r,
      events := [Ev.ppuStep i c.view.cy r, Ev.irq i] }
  else
    { cpu := c2, result := r, events := [Ev.ppuStep i c.view.cy r] }

/-- Lines 298 (i = 0) and 299 (i = 1) of src/src/lib.rs: apu.step(cpu.cy),
compiled only under the audio feature. -/
def apuStepOn (M : Machine σ γ ω) (i : Nat) (c : Cpu σ) : Cpu σ × List Ev :=
  ({ c with view := { c.view with core := M.apuStepF c.view.cy c.view.core } },
   [Ev.apuStep i c.view.cy])

/-- Lines 343–352 of src/src/lib.rs: cpu1's gamepad is overwritten with a
clone of cpu0's; if started, cpu1's right button is then forced true; finally
started is set the first time the copied state has start pressed.  Returns
the updated cpu1 and started flag. -/
def gamepadFeed (started : Bool) (c : Cpu σ) (c1 : Cpu σ) : Cpu σ × Bool :=
  let c1 := { c1 with view := { c1.view with gamepad0 := c.view.gamepad0 } }
  let c1 :=
    if started then
      { c1 with view := { c1.view with gamepad0 := { c1.view.gamepad0 with right := true } } }
    else c1
  let started := if !started && c1.view.gamepad0.start then true else started
  (c1, started)

/-- Lines 327–352 of src/src/lib.rs: poll the input sink and honor the
result — Continue does nothing, Quit breaks out of the loop, SaveState /
LoadState unwrap File::create / File::open (panicking on failure), perform
cpu.save / cpu.load and set the status line — then (unless the loop broke or
panicked) feed cpu0's gamepad to cpu1 and update started (lines 343–352).
The arguments are the loop state at the top of the block, the statistics
record as record_fps returned it, cpu0 after the audio push, cpu1 after
presentation, and the two graphics sinks after presentation; the events
returned are only those of this part of the block. -/
def inputHonor (M : Machine σ γ ω) (s : LoopState σ γ ω) (stats : Stats)
    (cpu cpu1 : Cpu σ) (gfx gfx1 : γ) : IterOut σ γ ω :=
  let q := M.checkInputF cpu.view.core cpu.view.gamepad0 s.world
  let cpu := { cpu with view := { cpu.view with core := q.core, gamepad0 := q.gamepad0 } }
  let world := q.world
  match q.result with
  | InputResult.Continue =>
      let fed := gamepadFeed s.started cpu cpu1
      { state :=
          { s with
              stats := stats, cpu := cpu, cpu1 := fed.1, started := fed.2,
              gfx := gfx, gfx1 := gfx1, world := world },
        events := [Ev.checkInput InputResult.Continue], outcome := Outcome.next }
  | InputResult.Quit =>
      { state :=
          { s with
              stats := stats, cpu := cpu, cpu1 := cpu1,
              gfx := gfx, gfx1 := gfx1, world := world },
        events := [Ev.checkInput InputResult.Quit, Ev.breakEv],
        outcome := Outcome.exited }
  | InputResult.SaveState =>
      let fc := M.fileCreateF world
      if fc.1 then
        let world := M.saveF cpu.view fc.2
        let gfx := M.statusLineSetF "Saved state" gfx
        let fed := gamepadFeed s.started cpu cpu1
        { state :=
            { s with
                stats := stats, cpu := cpu, cpu1 := fed.1, started := fed.2,
                gfx := gfx, gfx1 := gfx1, world := world },
          events := [Ev.checkInput InputResult.SaveState, Ev.fileCreate true,
                     Ev.cpuSave 0, Ev.statusSet 0 "Saved state"],
          outcome := Outcome.next }
      else
        { state :=
            { s with
                stats := stats, cpu := cpu, cpu1 := cpu1,
                gfx := gfx, gfx1 := gfx1, world := fc.2 },
          events := [Ev.checkInput InputResult.SaveState, Ev.fileCreate false, Ev.panicEv],
          outcome := Outcome.panicked }
  | InputResult.LoadState =>
      let fo := M.fileOpenF world
      if fo.1 then
        let cpu := { cpu with view := M.loadF fo.2 cpu.view }
        let gfx := M.statusLineSetF "Loaded state" gfx
        let fed := gamepadFeed s.started cpu cpu1
        { state :=
            { s with
                stats := stats, cpu := cpu, cpu1 := fed.1, started := fed.2,
                gfx := gfx, gfx1 := gfx1, world := fo.2 },
          events := [Ev.checkInput InputResult.LoadState, Ev.fileOpen true,
                     Ev.cpuLoad 0, Ev.statusSet 0 "Loaded state"],
          outcome := Outcome.next }
      else
        { state :=
            { s with
                stats := stats, cpu := cpu, cpu1 := cpu1,
                gfx := gfx, gfx1 := gfx1, world := fo.2 },
          events := [Ev.checkInput InputResult.LoadState, Ev.fileOpen false, Ev.panicEv],
          outcome := Outcome.panicked }

/-- Lines 309–353 of src/src/lib.rs: the block run when cpu0's PPU reported a
new frame.  Swap the trace buffers into stats, present both framebuffers,
run record_fps for cpu0 (a failed assert! panics), push audio when the audio
feature is on, then poll input, honor the result and feed the gamepad
(inputHonor). -/
def frameBlock0 (M : Machine σ γ ω) (audio : Bool) (s : LoopState σ γ ω) (now : Rat) :
    IterOut σ γ ω :=
  let sw := swapBuffers s.stats s.cpu
  let stats := sw.1
  let cpu := sw.2
  let gfx := M.gfxTickF s.gfx
  let gc := M.gfxCompositeF gfx cpu.view.core
  let gfx := gc.1
  let cpu := { cpu with view := { cpu.view with core := gc.2 } }
  let gfx1 := M.gfxTickF s.gfx1
  let gc1 := M.gfxCompositeF gfx1 s.cpu1.view.core
  let gfx1 := gc1.1
  let cpu1 : Cpu σ := { s.cpu1 with view := { s.cpu1.view with core := gc1.2 } }
  let evs := [Ev.gfxTick 0, Ev.gfxComposite 0, Ev.gfxTick 1, Ev.gfxComposite 1, Ev.recordFps 0]
  match record_fps stats now with
  | none =>
      { state :=
          { s with
              stats := stats, cpu := cpu, cpu1 := cpu1, gfx := gfx, gfx1 := gfx1 },
        events := evs ++ [Ev.panicEv], outcome := Outcome.panicked }
  | some stats =>
    let cpu :=
      if audio then { cpu with view := { cpu.view with core := M.playChannelsF cpu.view.core } }
      else cpu
    let evs := evs ++ (if audio then [Ev.playChannels 0] else [])
    let ih := inputHonor M s stats cpu cpu1 gfx gfx1
    { state := ih.state, events := evs ++ ih.events, outcome := ih.outcome }

/-- Lines 355–363 of src/src/lib.rs: the block run when cpu1's PPU reported a
new frame: swap cpu1's trace buffers into stats1 and run record_fps for
cpu1. -/
def frameBlock1 (M : Machine σ γ ω) (s : LoopState σ γ ω) (now : Rat) : IterOut σ γ ω :=
  let sw := swapBuffers s.stats1 s.cpu1
  match record_fps sw.1 now with
  | none =>
      { state := { s with stats1 := sw.1, cpu1 := sw.2 },
        events := [Ev.recordFps 1, Ev.panicEv], outcome := Outcome.panicked }
  | some stats1 =>
      { state := { s with stats1 := stats1, cpu1 := sw.2 },
        events := [Ev.recordFps 1], outcome := Outcome.next }

/-- cpu0 just after cpu.step() in an iteration started from s (src/src/lib.rs
line 263). -/
def stepped0 (M : Machine σ γ ω) (s : LoopState σ γ ω) : Cpu σ := Cpu.step M s.cpu

/-- cpu1 just after cpu1.step() (src/src/lib.rs line 264). -/
def stepped1 (M : Machine σ γ ω) (s : LoopState σ γ ω) : Cpu σ := Cpu.step M s.cpu1

/-- The `ppu_result` of the iteration started from s: what cpu0's PPU step on
line 282 of src/src/lib.rs returns. -/
def ppu_result0 (M : Machine σ γ ω) (s : LoopState σ γ ω) : PpuResult :=
  (ppuAndInterrupts M 0 (stepped0 M s)).result

/-- The `ppu_result1` of the iteration started from s: what cpu1's PPU step on
line 289 of src/src/lib.rs returns. -/
def ppu_result1 (M : Machine σ γ ω) (s : LoopState σ γ ω) : PpuResult :=
  (ppuAndInterrupts M 1 (stepped1 M s)).result

/-- cpu0's core view after its PPU step and interrupt dispatch
(src/src/lib.rs lines 282–287). -/
def dispatched0 (M : Machine σ γ ω) (s : LoopState σ γ ω) : CoreView σ :=
  (ppuAndInterrupts M 0 (stepped0 M s)).cpu.view

/-- cpu1's core view after its PPU step and interrupt dispatch
(src/src/lib.rs lines 289–294). -/
def dispatched1 (M : Machine σ γ ω) (s : LoopState σ γ ω) : CoreView σ :=
  (ppuAndInterrupts M 1 (stepped1 M s)).cpu.view

/-- The loop state after lines 263–302 of src/src/lib.rs, before the
new-frame blocks: both CPUs stepped, both statistics counters bumped, both
PPUs stepped with interrupts dispatched, both APUs stepped when the audio
feature is on. -/
def preState (M : Machine σ γ ω) (audio : Bool) (s : LoopState σ γ ω) : LoopState σ γ ω :=
  let cpu := stepped0 M s
  let cpu1 := stepped1 M s
  let stats := bumpCounters s.stats cpu.view.conditional_jump
  let stats1 := bumpCounters s.stats1 cpu1.view.conditional_jump
  let cpu := (ppuAndInterrupts M 0 cpu).cpu
  let cpu1 := (ppuAndInterrupts M 1 cpu1).cpu
  let cpu := if audio then (apuStepOn M 0 cpu).1 else cpu
  let cpu1 := if audio then (apuStepOn M 1 cpu1).1 else cpu1
  { cpu := cpu, cpu1 := cpu1, stats := stats, stats1 := stats1,
    started := s.started, gfx := s.gfx, gfx1 := s.gfx1, world := s.world }

/-- The events emitted by lines 263–302 of src/src/lib.rs: the two CPU
steps, the two PPU steps with their interrupt dispatches, and the two APU
steps when the audio feature is on. -/
def preEvents (M : Machine σ γ ω) (audio : Bool) (s : LoopState σ γ ω) : List Ev :=
  [Ev.cpuStep 0, Ev.cpuStep 1]
    ++ (ppuAndInterrupts M 0 (stepped0 M s)).events
    ++ (ppuAndInterrupts M 1 (stepped1 M s)).events
    ++ (if audio then (apuStepOn M 0 (ppuAndInterrupts M 0 (stepped0 M s)).cpu).2 else [])
    ++ (if audio then (apuStepOn M 1 (ppuAndInterrupts M 1 (stepped1 M s)).cpu).2 else [])

/-- One iteration of the executive loop, src/src/lib.rs lines 262–364:
cpu.step(); cpu1.step(); the statistics counters (lines 266–280); the PPU
step and interrupt dispatch for cpu0 then cpu1 (lines 282–294); the APU
steps under the audio feature (lines 296–300) — all gathered in preState —
then the host time read (line 302; lines 304–307 are an if whose body is
entirely commented out), then the cpu0 new-frame block and, if it fell
through normally, the cpu1 new-frame block.  A break or panic inside the
cpu0 block skips everything after it, exactly as in the source. -/
def iter (M : Machine σ γ ω) (audio : Bool) (s : LoopState σ γ ω) : IterOut σ γ ω :=
  let s2 := preState M audio s
  let now := M.nowF s.world
  let preEvs := preEvents M audio s
  if (ppu_result0 M s).new_frame then
    let f0 := frameBlock0 M audio s2 now
    match f0.outcome with
    | Outcome.next =>
        if (ppu_result1 M s).new_frame then
          let f1 := frameBlock1 M f0.state now
          { state := f1.state, events := preEvs ++ f0.events ++ f1.events, outcome := f1.outcome }
        else
          { state := f0.state, events := preEvs ++ f0.events, outcome := Outcome.next }
    | o => { state := f0.state, events := preEvs ++ f0.events, outcome := o }
  else if (ppu_result1 M s).new_frame then
    let f1 := frameBlock1 M s2 now
    { state := f1.state, events := preEvs ++ f1.events, outcome := f1.outcome }
  else
    { state := s2, events := preEvs, outcome := Outcome.next }

/-- The state at the top of the first loop iteration, src/src/lib.rs lines
241–260: the two NES instances as constructed and reset, empty trace
buffers, Stats::new for both statistics records (both read the host clock),
and started = false. -/
def initState (M : Machine σ γ ω) : LoopState σ γ ω :=
  let t := M.nowF M.initWorld
  { cpu := { view := M.initView0, branches_taken := [], branches_not_taken := [],
             loads := [], stores := [] },
    cpu1 := { view := M.initView1, branches_taken := [], branches_not_taken := [],
              loads := [], stores := [] },
    stats := Stats.new t, stats1 := Stats.new t,
    started := false,
    gfx := M.initGfx, gfx1 := M.initGfx1, world := M.initWorld }

/-- The loop state and pending outcome after n iterations of the executive
loop.  Once an iteration breaks out of the loop or panics, the state is
frozen. -/
def run (M : Machine σ γ ω) (audio : Bool) : Nat → LoopState σ γ ω × Outcome
  | 0 => (initState M, Outcome.next)
  | n + 1 =>
    let p := run M audio n
    match p.2 with
    | Outcome.next =>
        let o := iter M audio p.1
        (o.state, o.outcome)
    | _ => p

/-! ## The loop with the statistics scaffolding removed

For the observational-purity claim we repeat the loop translation with every
statistics statement deleted: the Stats records, the counter updates (lines
266–280), the trace-buffer swaps (lines 310–314 and 356–360), the record_fps
calls (lines 322 and 362) and the host-time read that only feeds them (line
302).  Everything else — the CPU/PPU/APU stepping, interrupt dispatch,
presentation, input polling, save/load and the gamepad feeding — is kept
verbatim. -/

/-- The loop state with the statistics records removed. -/
structure LoopStateNS (σ γ ω : Type) where
  cpu : Cpu σ
  cpu1 : Cpu σ
  started : Bool
  gfx : γ
  gfx1 : γ
  world : ω

/-- The input poll and honoring of the statistics-free loop: identical to
inputHonor except that no statistics record is carried. -/
def inputHonorNS (M : Machine σ γ ω) (t : LoopStateNS σ γ ω)
    (cpu cpu1 : Cpu σ) (gfx gfx1 : γ) : LoopStateNS σ γ ω × Outcome :=
  let q := M.checkInputF cpu.view.core cpu.view.gamepad0 t.world
  let cpu := { cpu with view := { cpu.view with core := q.core, gamepad0 := q.gamepad0 } }
  let world := q.world
  match q.result with
  | InputResult.Continue =>
      let fed := gamepadFeed t.started cpu cpu1
      ({ t with
           cpu := cpu, cpu1 := fed.1, started := fed.2,
           gfx := gfx, gfx1 := gfx1, world := world }, Outcome.next)
  | InputResult.Quit =>
      ({ t with
           cpu := cpu, cpu1 := cpu1,
           gfx := gfx, gfx1 := gfx1, world := world }, Outcome.exited)
  | InputResult.SaveState =>
      let fc := M.fileCreateF world
      if fc.1 then
        let world := M.saveF cpu.view fc.2
        let gfx := M.statusLineSetF "Saved state" gfx
        let fed := gamepadFeed t.started cpu cpu1
        ({ t with
             cpu := cpu, cpu1 := fed.1, started := fed.2,
             gfx := gfx, gfx1 := gfx1, world := world }, Outcome.next)
      else
        ({ t with
             cpu := cpu, cpu1 := cpu1,
             gfx := gfx, gfx1 := gfx1, world := fc.2 }, Outcome.panicked)
  | InputResult.LoadState =>
      let fo := M.fileOpenF world
      if fo.1 then
        let cpu := { cpu with view := M.loadF fo.2 cpu.view }
        let gfx := M.statusLineSetF "Loaded state" gfx
        let fed := gamepadFeed t.started cpu cpu1
        ({ t with
             cpu := cpu, cpu1 := fed.1, started := fed.2,
             gfx := gfx, gfx1 := gfx1, world := fo.2 }, Outcome.next)
      else
        ({ t with
             cpu := cpu, cpu1 := cpu1,
             gfx := gfx, gfx1 := gfx1, world := fo.2 }, Outcome.panicked)

/-- The cpu0 new-frame block with the statistics statements removed:
presentation of both framebuffers, the audio push when the audio feature is
on, then the input poll, honoring and gamepad feeding (inputHonorNS). -/
def frameBlock0NS (M : Machine σ γ ω) (audio : Bool) (t : LoopStateNS σ γ ω) :
    LoopStateNS σ γ ω × Outcome :=
  let cpu := t.cpu
  let gfx := M.gfxTickF t.gfx
  let gc := M.gfxCompositeF gfx cpu.view.core
  let gfx := gc.1
  let cpu := { cpu with view := { cpu.view with core := gc.2 } }
  let gfx1 := M.gfxTickF t.gfx1
  let gc1 := M.gfxCompositeF gfx1 t.cpu1.view.core
  let gfx1 := gc1.1
  let cpu1 : Cpu σ := { t.cpu1 with view := { t.cpu1.view with core := gc1.2 } }
  let cpu :=
    if audio then { cpu with view := { cpu.view with core := M.playChannelsF cpu.view.core } }
    else cpu
  inputHonorNS M t cpu cpu1 gfx gfx1

/-- The pre-frame part of one statistics-free iteration: both CPUs stepped,
both PPUs stepped with interrupts dispatched, both APUs stepped when the
audio feature is on. -/
def preStateNS (M : Machine σ γ ω) (audio : Bool) (t : LoopStateNS σ γ ω) :
    LoopStateNS σ γ ω :=
  let cpu := Cpu.step M t.cpu
  let cpu1 := Cpu.step M t.cpu1
  let cpu := (ppuAndInterrupts M 0 cpu).cpu
  let cpu1 := (ppuAndInterrupts M 1 cpu1).cpu
  let cpu := if audio then (apuStepOn M 0 cpu).1 else cpu
  let cpu1 := if audio then (apuStepOn M 1 cpu1).1 else cpu1
  { cpu := cpu, cpu1 := cpu1, started := t.started,
    gfx := t.gfx, gfx1 := t.gfx1, world := t.world }

/-- One iteration of the executive loop with the statistics statements
removed.  The cpu1 new-frame block disappears entirely: it contained only
statistics code. -/
def iterNS (M : Machine σ γ ω) (audio : Bool) (t : LoopStateNS σ γ ω) :
    LoopStateNS σ γ ω × Outcome :=
  let t2 := preStateNS M audio t
  if (ppuAndInterrupts M 0 (Cpu.step M t.cpu)).result.new_frame then
    frameBlock0NS M audio t2
  else (t2, Outcome.next)

/-- Initial state of the statistics-free loop. -/
def initStateNS (M : Machine σ γ ω) : LoopStateNS σ γ ω :=
  { cpu := { view := M.initView0, branches_taken := [], branches_not_taken := [],
             loads := [], stores := [] },
    cpu1 := { view := M.initView1, branches_taken := [], branches_not_taken := [],
              loads := [], stores := [] },
    started := false,
    gfx := M.initGfx, gfx1 := M.initGfx1, world := M.initWorld }

/-- The statistics-free loop after n iterations. -/
def runNS (M : Machine σ γ ω) (audio : Bool) : Nat → LoopStateNS σ γ ω × Outcome
  | 0 => (initStateNS M, Outcome.next)
  | n + 1 =>
    let p := runNS M audio n
    match p.2 with
    | Outcome.next => iterNS M audio p.1
    | _ => p

/-! ## Vocabulary for the event trace of one iteration -/

/-- The events emitted by the interrupt dispatch for the PpuResult r of NES
instance i (src/src/lib.rs lines 283–287 and 290–294). -/
def intEvs (i : Nat) (r : PpuResult) : List Ev :=
  if r.vblank_nmi then [Ev.nmi i]
  else if r.scanline_irq then [Ev.irq i]
  else []

/-- The events of the APU stepping (src/src/lib.rs lines 296–300): both APUs
are stepped when the audio feature is on, with the respective cycle
counters. -/
def apuEvs (audio : Bool) (a0 a1 : Nat) : List Ev :=
  if audio then [Ev.apuStep 0 a0, Ev.apuStep 1 a1] else []

/-- The events of honoring one check_input result (src/src/lib.rs lines
327–338), given whether the file operation (if any) succeeded. -/
def honorEvs (res : InputResult) (fok : Bool) : List Ev :=
  match res with
  | InputResult.Continue => [Ev.checkInput InputResult.Continue]
  | InputResult.Quit => [Ev.checkInput InputResult.Quit, Ev.breakEv]
  | InputResult.SaveState =>
      Ev.checkInput InputResult.SaveState ::
        (if fok then [Ev.fileCreate true, Ev.cpuSave 0, Ev.statusSet 0 "Saved state"]
         else [Ev.fileCreate false, Ev.panicEv])
  | InputResult.LoadState =>
      Ev.checkInput InputResult.LoadState ::
        (if fok then [Ev.fileOpen true, Ev.cpuLoad 0, Ev.statusSet 0 "Loaded state"]
         else [Ev.fileOpen false, Ev.panicEv])

/-- The events of the cpu0 new-frame block when record_fps does not panic
(src/src/lib.rs lines 309–353): presentation of both framebuffers, the cpu0
record_fps call, the audio push when the audio feature is on, then the input
poll and its honoring. -/
def frame0Evs (audio : Bool) (res : InputResult) (fok : Bool) : List Ev :=
  [Ev.gfxTick 0, Ev.gfxComposite 0, Ev.gfxTick 1, Ev.gfxComposite 1, Ev.recordFps 0]
    ++ (if audio then [Ev.playChannels 0] else [])
    ++ honorEvs res fok

/-- How the cpu0 new-frame block ends, as a function of the input result and
file-operation success (assuming record_fps does not panic). -/
def block0Outcome (res : InputResult) (fok : Bool) : Outcome :=
  match res with
  | InputResult.Continue => Outcome.next
  | InputResult.Quit => Outcome.exited
  | InputResult.SaveState => if fok then Outcome.next else Outcome.panicked
  | InputResult.LoadState => if fok then Outcome.next else Outcome.panicked

/-- The events of the whole frame-handling part of one iteration (both
new-frame blocks), assuming neither record_fps call panics. -/
def frameEvs (audio : Bool) (r0 r1 : PpuResult) (res : InputResult) (fok : Bool) : List Ev :=
  if r0.new_frame then
    frame0Evs audio res fok
      ++ (if block0Outcome res fok = Outcome.next ∧ r1.new_frame then [Ev.recordFps 1] else [])
  else if r1.new_frame then [Ev.recordFps 1]
  else []

/-- How the whole iteration ends, assuming neither record_fps call
panics. -/
def iterOutcome (r0 r1 : PpuResult) (res : InputResult) (fok : Bool) : Outcome :=
  if r0.new_frame then block0Outcome res fok else Outcome.next

/-- The four Stats fields asserted empty by record_fps are empty. -/
def statsSetsEmpty (st : Stats) : Prop :=
  st.addrs_visited = [] ∧ st.addrs_not_visited = [] ∧
    st.memory_reads = [] ∧ st.memory_writes = []

/-- The host file operations on state.sav succeed. -/
def filesOk (M : Machine σ γ ω) : Prop :=
  ∀ w, (M.fileCreateF w).1 = true ∧ (M.fileOpenF w).1 = true

/-- Connection between the file-success flag of the event characterizations
and the machine's file oracles: when every file operation succeeds the flag
is true, and when every relevant file operation fails it is false. -/
def fokSpec (M : Machine σ γ ω) (res : InputResult) (fok : Bool) : Prop :=
  (filesOk M → fok = true)
  ∧ ((∀ w, (M.fileCreateF w).1 = false) → res = InputResult.SaveState → fok = false)
  ∧ ((∀ w, (M.fileOpenF w).1 = false) → res = InputResult.LoadState → fok = false)

/-- Recognizes a check_input event. -/
def Ev.isCheckInput : Ev → Bool
  | Ev.checkInput _ => true
  | _ => false

/-- Recognizes a status-line event. -/
def Ev.isStatusSet : Ev → Bool
  | Ev.statusSet _ _ => true
  | _ => false

/-- Recognizes a cpu.step event of either NES instance. -/
def Ev.isCpuStep : Ev → Bool
  | Ev.cpuStep _ => true
  | _ => false

/-! ## Invariant: the asserted Stats sets are empty at every record_fps call -/

/-- When the four asserted sets are empty on entry, record_fps passes all
four assert! calls, returns normally, and leaves the four sets empty again
(they are replaced with fresh defaults on lines 220–226). -/
theorem record_fps_of_empty (st : Stats) (now : Rat)
    (h1 : st.addrs_visited = []) (h2 : st.addrs_not_visited = [])
    (h3 : st.memory_reads = []) (h4 : st.memory_writes = []) :
    ∃ st2, record_fps st now = some st2 ∧ statsSetsEmpty st2 := by
  unfold record_fps
  simp only [Bool.not_true, Bool.false_eq_true, if_false, if_true, h1, h2, h3, h4,
    ne_eq, not_true_eq_false, not_false_eq_true]
  split <;> exact ⟨_, rfl, rfl, rfl, rfl, rfl⟩

/-- swapBuffers does not touch the four asserted sets of the Stats record. -/
theorem swapBuffers_sets (st : Stats) (c : Cpu σ) :
    (swapBuffers st c).1.addrs_visited = st.addrs_visited
    ∧ (swapBuffers st c).1.addrs_not_visited = st.addrs_not_visited
    ∧ (swapBuffers st c).1.memory_reads = st.memory_reads
    ∧ (swapBuffers st c).1.memory_writes = st.memory_writes :=
  ⟨rfl, rfl, rfl, rfl⟩

/-- The per-step counter updates do not touch the four asserted sets. -/
theorem bumpCounters_sets (st : Stats) (b : Bool) (h : statsSetsEmpty st) :
    statsSetsEmpty (bumpCounters st b) := by
  obtain ⟨h1, h2, h3, h4⟩ := h
  unfold bumpCounters statsSetsEmpty
  split <;> simp [h1, h2, h3, h4]

/-- Recognizes the gfx.tick() event of the first graphics sink. -/
def Ev.isGfxTick0 : Ev → Bool
  | Ev.gfxTick 0 => true
  | _ => false

/-- Recognizes the gfx.composite(..) event of the first graphics sink. -/
def Ev.isGfxComposite0 : Ev → Bool
  | Ev.gfxComposite 0 => true
  | _ => false

/-- Agreement between a full loop state and a statistics-free one:
everything except the statistics records and the trace buffers coincides. -/
def agreeNS (s : LoopState σ γ ω) (t : LoopStateNS σ γ ω) : Prop :=
  s.cpu.view = t.cpu.view ∧ s.cpu1.view = t.cpu1.view ∧ s.started = t.started
  ∧ s.gfx = t.gfx ∧ s.gfx1 = t.gfx1 ∧ s.world = t.world

/-- A gamepad with no buttons pressed. -/
def gpOff : GamePad :=
  { a := false, b := false, select := false, start := false,
    up := false, down := false, left := false, right := false }

/-- A concrete machine over trivial component states, used to evaluate the
executive loop at specific collaborator behaviours: the CPU step adds two
cycles, the PPU always returns the fixed result r, check_input always
returns res, the file operations report fok, and the two NES instances
start with the given gamepads. -/
def demoMachine (res : InputResult) (fok : Bool) (r : PpuResult) (gp0 gp1 : GamePad) :
    Machine Unit Unit Unit :=
  { cpuStepF := fun v =>
      { view := { v with cy := v.cy + 2 }, bt := [], bnt := [], ld := [], st := [] }
    nmiF := fun v => { v with cy := v.cy + 7 }
    irqF := fun v => { v with cy := v.cy + 7 }
    ppuStepF := fun _ c => (r, c)
    apuStepF := fun _ c => c
    playChannelsF := fun c => c
    gfxTickF := fun g => g
    gfxCompositeF := fun g c => (g, c)
    statusLineSetF := fun _ g => g
    nowF := fun _ => 0
    checkInputF := fun c gp _ => { result := res, core := c, gamepad0 := gp, world := () }
    fileCreateF := fun w => (fok, w)
    fileOpenF := fun w => (fok, w)
    saveF := fun _ w => w
    loadF := fun _ v => v
    initView0 := { cy := 0, conditional_jump := false, gamepad0 := gp0, core := () }
    initView1 := { cy := 0, conditional_jump := false, gamepad0 := gp1, core := () }
    initGfx := ()
    initGfx1 := ()
    initWorld := () }

/-- A PpuResult reporting only a new frame. -/
def frameOnly : PpuResult := { vblank_nmi := false, scanline_irq := false, new_frame := true }

/-- Demo machine: frames every iteration, input always Continue, files ok. -/
def M0 : Machine Unit Unit Unit := demoMachine InputResult.Continue true frameOnly gpOff gpOff

/-- Demo machine for save-state failure: input always SaveState, every file
operation fails. -/
def Mbad : Machine Unit Unit Unit := demoMachine InputResult.SaveState false frameOnly gpOff gpOff

/-- Demo machine for the Quit frame: input always Quit, and cpu0's gamepad
differs from cpu1's (the a button is held on cpu0). -/
def Mquit : Machine Unit Unit Unit :=
  demoMachine InputResult.Quit true frameOnly { gpOff with a := true } gpOff

/-! ## Characterizations of the loop pieces -/

/-- The result field of ppuAndInterrupts is exactly what the PPU step oracle
returned. -/
theorem ppuAndInterrupts_result (M : Machine σ γ ω) (i : Nat) (c : Cpu σ) :
    (ppuAndInterrupts M i c).result = (M.ppuStepF c.view.cy c.view.core).1 := by
  simp only [ppuAndInterrupts]
  split
  · rfl
  · split <;> rfl

/-- The events of the PPU step and interrupt dispatch: the ppuStep event
carrying the cy argument and the result, followed by the dispatched
interrupt (if any). -/
theorem ppuAndInterrupts_events (M : Machine σ γ ω) (i : Nat) (c : Cpu σ) :
    (ppuAndInterrupts M i c).events =
      Ev.ppuStep i c.view.cy (ppuAndInterrupts M i c).result ::
        intEvs i (ppuAndInterrupts M i c).result := by
  rw [ppuAndInterrupts_result]
  simp only [ppuAndInterrupts, intEvs]
  split
  · simp_all
  · split <;> simp_all

/-- The pre-frame events of one iteration, in source order. -/
theorem preEvents_eq (M : Machine σ γ ω) (audio : Bool) (s : LoopState σ γ ω) :
    preEvents M audio s =
      [Ev.cpuStep 0, Ev.cpuStep 1,
       Ev.ppuStep 0 (stepped0 M s).view.cy (ppu_result0 M s)] ++ intEvs 0 (ppu_result0 M s)
      ++ [Ev.ppuStep 1 (stepped1 M s).view.cy (ppu_result1 M s)] ++ intEvs 1 (ppu_result1 M s)
      ++ apuEvs audio (dispatched0 M s).cy (dispatched1 M s).cy := by
  unfold preEvents ppu_result0 ppu_result1 dispatched0 dispatched1 apuEvs
  rw [ppuAndInterrupts_events M 0, ppuAndInterrupts_events M 1]
  cases audio <;> simp [apuStepOn]

/-- The view of cpu1 after the gamepad feeding: cpu0's gamepad is copied
over, with the right button forced when started. -/
theorem gamepadFeed_view (st : Bool) (c c1 : Cpu σ) :
    (gamepadFeed st c c1).1.view =
      { c1.view with
          gamepad0 :=
            if st then { c.view.gamepad0 with right := true } else c.view.gamepad0 } := by
  cases st <;> simp [gamepadFeed]

/-- The started flag after the gamepad feeding: set exactly when it already
was, or when the copied gamepad has start pressed. -/
theorem gamepadFeed_snd (st : Bool) (c c1 : Cpu σ) :
    (gamepadFeed st c c1).2 = (st || c.view.gamepad0.start) := by
  cases st <;> simp [gamepadFeed]

/-- Characterization of the input poll and honoring, for the cpu0 new-frame
block: there is an input-poll result res and a file-operation success flag
fok such that the block's events are frame0Evs audio res fok and its outcome
block0Outcome res fok, the record_fps result becomes the stats record,
stats1 is untouched, and (when the block falls through normally) the gamepad
feeding and started update behave as on lines 343–352 of src/src/lib.rs. -/
theorem inputHonor_framed (M : Machine σ γ ω) (s : LoopState σ γ ω) (stats : Stats)
    (hst : statsSetsEmpty stats) (audio : Bool) (cpu cpu1 : Cpu σ) (gfx gfx1 : γ) :
    ∃ (res : InputResult) (fok : Bool),
      (([Ev.gfxTick 0, Ev.gfxComposite 0, Ev.gfxTick 1, Ev.gfxComposite 1, Ev.recordFps 0]
          ++ (if audio then [Ev.playChannels 0] else []))
        ++ (inputHonor M s stats cpu cpu1 gfx gfx1).events = frame0Evs audio res fok
      ∧ (inputHonor M s stats cpu cpu1 gfx gfx1).outcome = block0Outcome res fok
      ∧ statsSetsEmpty (inputHonor M s stats cpu cpu1 gfx gfx1).state.stats
      ∧ (inputHonor M s stats cpu cpu1 gfx gfx1).state.stats1 = s.stats1
      ∧ (block0Outcome res fok = Outcome.next →
          (inputHonor M s stats cpu cpu1 gfx gfx1).state.started =
            (s.started ||
              (inputHonor M s stats cpu cpu1 gfx gfx1).state.cpu.view.gamepad0.start)
          ∧ (inputHonor M s stats cpu cpu1 gfx gfx1).state.cpu1.view.gamepad0 =
              (if s.started then
                { (inputHonor M s stats cpu cpu1 gfx gfx1).state.cpu.view.gamepad0 with
                    right := true }
               else (inputHonor M s stats cpu cpu1 gfx gfx1).state.cpu.view.gamepad0))
      ∧ (block0Outcome res fok ≠ Outcome.next →
          (inputHonor M s stats cpu cpu1 gfx gfx1).state.started = s.started))
      ∧ fokSpec M res fok := by
  obtain ⟨e1, e2, e3, e4⟩ := hst
  cases hres : (M.checkInputF cpu.view.core cpu.view.gamepad0 s.world).result
  case Continue =>
    refine ⟨InputResult.Continue, true, ?_, ?_, ?_, ?_⟩
    · simp [inputHonor, hres, frame0Evs, honorEvs, block0Outcome,
        gamepadFeed_view, gamepadFeed_snd, statsSetsEmpty, e1, e2, e3, e4]
    · exact fun _ => rfl
    · intro _ h; exact absurd h (by decide)
    · intro _ h; exact absurd h (by decide)
  case Quit =>
    refine ⟨InputResult.Quit, true, ?_, ?_, ?_, ?_⟩
    · simp [inputHonor, hres, frame0Evs, honorEvs, block0Outcome, statsSetsEmpty, e1, e2, e3, e4]
    · exact fun _ => rfl
    · intro _ h; exact absurd h (by decide)
    · intro _ h; exact absurd h (by decide)
  case SaveState =>
    cases hfc : (M.fileCreateF (M.checkInputF cpu.view.core cpu.view.gamepad0 s.world).world).1
    case true =>
      refine ⟨InputResult.SaveState, true, ?_, ?_, ?_, ?_⟩
      · simp [inputHonor, hres, hfc, frame0Evs, honorEvs, block0Outcome,
          gamepadFeed_view, gamepadFeed_snd, statsSetsEmpty, e1, e2, e3, e4]
      · exact fun _ => rfl
      · intro hall _
        exact absurd ((hall _).symm.trans hfc) (by decide)
      · intro _ h; exact absurd h (by decide)
    case false =>
      refine ⟨InputResult.SaveState, false, ?_, ?_, ?_, ?_⟩
      · simp [inputHonor, hres, hfc, frame0Evs, honorEvs, block0Outcome,
          statsSetsEmpty, e1, e2, e3, e4]
      · intro hok
        exact absurd ((hok _).1.symm.trans hfc) (by decide)
      · exact fun _ _ => rfl
      · intro _ h; exact absurd h (by decide)
  case LoadState =>
    cases hfo : (M.fileOpenF (M.checkInputF cpu.view.core cpu.view.gamepad0 s.world).world).1
    case true =>
      refine ⟨InputResult.LoadState, true, ?_, ?_, ?_, ?_⟩
      · simp [inputHonor, hres, hfo, frame0Evs, honorEvs, block0Outcome,
          gamepadFeed_view, gamepadFeed_snd, statsSetsEmpty, e1, e2, e3, e4]
      · exact fun _ => rfl
      · intro _ h; exact absurd h (by decide)
      · intro hall _
        exact absurd ((hall _).symm.trans hfo) (by decide)
    case false =>
      refine ⟨InputResult.LoadState, false, ?_, ?_, ?_, ?_⟩
      · simp [inputHonor, hres, hfo, frame0Evs, honorEvs, block0Outcome,
          statsSetsEmpty, e1, e2, e3, e4]
      · intro hok
        exact absurd ((hok _).2.symm.trans hfo) (by decide)
      · intro _ h; exact absurd h (by decide)
      · exact fun _ _ => rfl

/-- Characterization of the cpu0 new-frame block when the asserted Stats
sets are empty on entry: there is an input-poll result res and a
file-operation success flag fok such that the events and outcome are as
given by frame0Evs / block0Outcome, the asserted sets are empty again
afterwards, stats1 is untouched, and (when the block falls through
normally) the gamepad feeding and started update behave as on lines
343–352. -/
theorem frameBlock0_spec (M : Machine σ γ ω) (audio : Bool) (s : LoopState σ γ ω) (now : Rat)
    (h : statsSetsEmpty s.stats) :
    ∃ (res : InputResult) (fok : Bool),
      ((frameBlock0 M audio s now).events = frame0Evs audio res fok
      ∧ (frameBlock0 M audio s now).outcome = block0Outcome res fok
      ∧ statsSetsEmpty (frameBlock0 M audio s now).state.stats
      ∧ (frameBlock0 M audio s now).state.stats1 = s.stats1
      ∧ (block0Outcome res fok = Outcome.next →
          (frameBlock0 M audio s now).state.started =
            (s.started || (frameBlock0 M audio s now).state.cpu.view.gamepad0.start)
          ∧ (frameBlock0 M audio s now).state.cpu1.view.gamepad0 =
              (if s.started then
                { (frameBlock0 M audio s now).state.cpu.view.gamepad0 with right := true }
               else (frameBlock0 M audio s now).state.cpu.view.gamepad0))
      ∧ (block0Outcome res fok ≠ Outcome.next →
          (frameBlock0 M audio s now).state.started = s.started))
      ∧ fokSpec M res fok := by
  obtain ⟨st2, hsome, hst2⟩ :=
    record_fps_of_empty (swapBuffers s.stats s.cpu).1 now h.1 h.2.1 h.2.2.1 h.2.2.2
  simp only [frameBlock0, hsome]
  exact inputHonor_framed M s st2 hst2 audio _ _ _ _

/-- Characterization of the cpu1 new-frame block when the asserted Stats
sets are empty on entry: record_fps passes its asserts, so the block emits
its record_fps event and falls through, leaving stats untouched, the
asserted stats1 sets empty, and everything except stats1 and cpu1's trace
buffers unchanged. -/
theorem frameBlock1_spec (M : Machine σ γ ω) (s : LoopState σ γ ω) (now : Rat)
    (h : statsSetsEmpty s.stats1) :
    (frameBlock1 M s now).events = [Ev.recordFps 1]
    ∧ (frameBlock1 M s now).outcome = Outcome.next
    ∧ statsSetsEmpty (frameBlock1 M s now).state.stats1
    ∧ (frameBlock1 M s now).state.stats = s.stats
    ∧ (frameBlock1 M s now).state.started = s.started
    ∧ (frameBlock1 M s now).state.cpu.view = s.cpu.view
    ∧ (frameBlock1 M s now).state.cpu1.view = s.cpu1.view
    ∧ (frameBlock1 M s now).state.gfx = s.gfx
    ∧ (frameBlock1 M s now).state.gfx1 = s.gfx1
    ∧ (frameBlock1 M s now).state.world = s.world := by
  obtain ⟨st2, hsome, hst2⟩ :=
    record_fps_of_empty (swapBuffers s.stats1 s.cpu1).1 now h.1 h.2.1 h.2.2.1 h.2.2.2
  simp [frameBlock1, hsome, statsSetsEmpty]
  exact ⟨hst2, rfl⟩

/-- Master characterization of one loop iteration from a state whose
asserted Stats sets are empty: there are an input-poll result and a
file-success flag such that the iteration's events are exactly the
pre-frame events followed by the frame events, its outcome is iterOutcome,
and the asserted Stats sets are empty again afterwards. -/
theorem iter_spec (M : Machine σ γ ω) (audio : Bool) (s : LoopState σ γ ω)
    (h0 : statsSetsEmpty s.stats) (h1 : statsSetsEmpty s.stats1) :
    ∃ (res : InputResult) (fok : Bool),
      ((iter M audio s).events =
        [Ev.cpuStep 0, Ev.cpuStep 1,
         Ev.ppuStep 0 (stepped0 M s).view.cy (ppu_result0 M s)] ++ intEvs 0 (ppu_result0 M s)
        ++ [Ev.ppuStep 1 (stepped1 M s).view.cy (ppu_result1 M s)] ++ intEvs 1 (ppu_result1 M s)
        ++ apuEvs audio (dispatched0 M s).cy (dispatched1 M s).cy
        ++ frameEvs audio (ppu_result0 M s) (ppu_result1 M s) res fok
      ∧ (iter M audio s).outcome = iterOutcome (ppu_result0 M s) (ppu_result1 M s) res fok
      ∧ statsSetsEmpty (iter M audio s).state.stats
      ∧ statsSetsEmpty (iter M audio s).state.stats1)
      ∧ fokSpec M res fok := by
  have hb0 : statsSetsEmpty (preState M audio s).stats := bumpCounters_sets _ _ h0
  have hb1 : statsSetsEmpty (preState M audio s).stats1 := bumpCounters_sets _ _ h1
  obtain ⟨res, fok, ⟨he, ho, hs, hs1, hgp, hngp⟩, hfok⟩ :=
    frameBlock0_spec M audio (preState M audio s) (M.nowF s.world) hb0
  have hw : (preState M audio s).world = s.world := rfl
  refine ⟨res, fok, ?_, hfok⟩
  by_cases hf0 : (ppu_result0 M s).new_frame = true
  · have hfb1 : statsSetsEmpty
        (frameBlock0 M audio (preState M audio s) (M.nowF s.world)).state.stats1 := by
      rw [hs1]; exact hb1
    obtain ⟨f1e, f1o, f1s1, f1s, _, _, _, _, _, _⟩ :=
      frameBlock1_spec M (frameBlock0 M audio (preState M audio s) (M.nowF s.world)).state
        (M.nowF s.world) hfb1
    rcases hbo : block0Outcome res fok with _ | _ | _
    · by_cases hf1 : (ppu_result1 M s).new_frame = true
      · simp [iter, hf0, hf1, preEvents_eq, he, ho, hbo, f1e, f1o, frameEvs, iterOutcome, f1s1]
        rw [f1s]
        exact hs
      · simp [iter, hf0, hf1, preEvents_eq, he, ho, hbo, frameEvs, iterOutcome, hs, hs1, hb1]
    · simp [iter, hf0, preEvents_eq, he, ho, hbo, frameEvs, iterOutcome, hs, hfb1]
    · simp [iter, hf0, preEvents_eq, he, ho, hbo, frameEvs, iterOutcome, hs, hfb1]
  · by_cases hf1 : (ppu_result1 M s).new_frame = true
    · obtain ⟨g1e, g1o, g1s1, g1s, _, _, _, _, _, _⟩ :=
        frameBlock1_spec M (preState M audio s) (M.nowF s.world) hb1
      simp [iter, hf0, hf1, preEvents_eq, g1e, g1o, frameEvs, iterOutcome, g1s1, g1s, hb0]
    · simp [iter, hf0, hf1, preEvents_eq, frameEvs, iterOutcome, hb0, hb1]

/-! ## Membership and count characterizations of the event pieces -/

/-- Membership in the interrupt-dispatch events. -/
theorem mem_intEvs (e : Ev) (i : Nat) (r : PpuResult) :
    e ∈ intEvs i r ↔ ((r.vblank_nmi = true ∧ e = Ev.nmi i)
      ∨ (r.vblank_nmi = false ∧ r.scanline_irq = true ∧ e = Ev.irq i)) := by
  unfold intEvs
  cases hv : r.vblank_nmi <;> cases hs : r.scanline_irq <;> simp

/-- Membership in the APU-step events. -/
theorem mem_apuEvs (e : Ev) (audio : Bool) (a0 a1 : Nat) :
    e ∈ apuEvs audio a0 a1 ↔
      (audio = true ∧ (e = Ev.apuStep 0 a0 ∨ e = Ev.apuStep 1 a1)) := by
  cases audio <;> simp [apuEvs]

/-- Membership in the input-honoring events. -/
theorem mem_honorEvs (e : Ev) (res : InputResult) (fok : Bool) :
    e ∈ honorEvs res fok ↔
      (e = Ev.checkInput res
       ∨ (res = InputResult.Quit ∧ e = Ev.breakEv)
       ∨ (res = InputResult.SaveState ∧ fok = true ∧
           (e = Ev.fileCreate true ∨ e = Ev.cpuSave 0 ∨ e = Ev.statusSet 0 "Saved state"))
       ∨ (res = InputResult.SaveState ∧ fok = false ∧
           (e = Ev.fileCreate false ∨ e = Ev.panicEv))
       ∨ (res = InputResult.LoadState ∧ fok = true ∧
           (e = Ev.fileOpen true ∨ e = Ev.cpuLoad 0 ∨ e = Ev.statusSet 0 "Loaded state"))
       ∨ (res = InputResult.LoadState ∧ fok = false ∧
           (e = Ev.fileOpen false ∨ e = Ev.panicEv))) := by
  rcases res with _ | _ | _ | _ <;> cases fok <;> simp [honorEvs]

/-- Membership in the cpu0 new-frame block events. -/
theorem mem_frame0Evs (e : Ev) (audio : Bool) (res : InputResult) (fok : Bool) :
    e ∈ frame0Evs audio res fok ↔
      (e = Ev.gfxTick 0 ∨ e = Ev.gfxComposite 0 ∨ e = Ev.gfxTick 1 ∨ e = Ev.gfxComposite 1
       ∨ e = Ev.recordFps 0 ∨ (audio = true ∧ e = Ev.playChannels 0)
       ∨ e ∈ honorEvs res fok) := by
  cases audio <;> simp [frame0Evs]

/-- Membership in the frame-handling events. -/
theorem mem_frameEvs (e : Ev) (audio : Bool) (r0 r1 : PpuResult) (res : InputResult)
    (fok : Bool) :
    e ∈ frameEvs audio r0 r1 res fok ↔
      ((r0.new_frame = true ∧ e ∈ frame0Evs audio res fok)
       ∨ (r0.new_frame = true ∧ block0Outcome res fok = Outcome.next
           ∧ r1.new_frame = true ∧ e = Ev.recordFps 1)
       ∨ (r0.new_frame = false ∧ r1.new_frame = true ∧ e = Ev.recordFps 1)) := by
  unfold frameEvs
  cases h0 : r0.new_frame <;> cases h1 : r1.new_frame <;>
    rcases hbo : block0Outcome res fok with _ | _ | _ <;> simp [h0, h1, hbo]

/-- countP of a conditional singleton whose element the predicate rejects. -/
theorem countP_ite_singleton_zero (c : Prop) [Decidable c] (x : Ev) (p : Ev → Bool)
    (h : p x = false) : (if c then [x] else []).countP p = 0 := by
  split <;> simp [h]

/-- countP of the interrupt-dispatch events for a predicate rejecting
interrupts. -/
theorem countP_intEvs_zero (p : Ev → Bool) (i : Nat) (r : PpuResult)
    (h1 : p (Ev.nmi i) = false) (h2 : p (Ev.irq i) = false) :
    (intEvs i r).countP p = 0 := by
  unfold intEvs
  split
  · simp [h1]
  · split <;> simp [h2]

/-- countP of the APU events for a predicate rejecting APU steps. -/
theorem countP_apuEvs_zero (p : Ev → Bool) (audio : Bool) (a0 a1 : Nat)
    (h : ∀ i c, p (Ev.apuStep i c) = false) :
    (apuEvs audio a0 a1).countP p = 0 := by
  cases audio <;> simp [apuEvs, h]

/-- countP of the pre-frame events for a predicate rejecting every pre-frame
event kind. -/
theorem countP_preEvents_zero (M : Machine σ γ ω) (audio : Bool) (s : LoopState σ γ ω)
    (p : Ev → Bool)
    (hcpu : ∀ i, p (Ev.cpuStep i) = false)
    (hppu : ∀ i c r, p (Ev.ppuStep i c r) = false)
    (hnmi : ∀ i, p (Ev.nmi i) = false)
    (hirq : ∀ i, p (Ev.irq i) = false)
    (hapu : ∀ i c, p (Ev.apuStep i c) = false) :
    (preEvents M audio s).countP p = 0 := by
  rw [preEvents_eq]
  simp [List.countP_append, List.countP_cons, hcpu, hppu,
    countP_intEvs_zero p 0 _ (hnmi 0) (hirq 0), countP_intEvs_zero p 1 _ (hnmi 1) (hirq 1),
    countP_apuEvs_zero p audio _ _ hapu]

/-- countP of the input-honoring events for a predicate rejecting each of
its event kinds. -/
theorem countP_honorEvs_zero (p : Ev → Bool) (res : InputResult) (fok : Bool)
    (h1 : ∀ r, p (Ev.checkInput r) = false) (h2 : p Ev.breakEv = false)
    (h3 : ∀ b, p (Ev.fileCreate b) = false) (h4 : ∀ b, p (Ev.fileOpen b) = false)
    (h5 : ∀ i, p (Ev.cpuSave i) = false) (h6 : ∀ i, p (Ev.cpuLoad i) = false)
    (h7 : ∀ i t, p (Ev.statusSet i t) = false) (h8 : p Ev.panicEv = false) :
    (honorEvs res fok).countP p = 0 := by
  rcases res with _ | _ | _ | _ <;> cases fok <;>
    simp [honorEvs, List.countP_cons, h1, h2, h3, h4, h5, h6, h7, h8]

/-- The input-honoring events contain exactly one check_input event. -/
theorem countP_honorEvs_checkInput (res : InputResult) (fok : Bool) :
    (honorEvs res fok).countP Ev.isCheckInput = 1 := by
  rcases res with _ | _ | _ | _ <;> cases fok <;> decide

/-- The frame events contain the first graphics sink's tick exactly once on
a cpu0 new frame, and never otherwise. -/
theorem countP_frameEvs_tick0 (audio : Bool) (r0 r1 : PpuResult) (res : InputResult)
    (fok : Bool) :
    (frameEvs audio r0 r1 res fok).countP Ev.isGfxTick0 =
      if r0.new_frame = true then 1 else 0 := by
  have hhon : (honorEvs res fok).countP Ev.isGfxTick0 = 0 :=
    countP_honorEvs_zero _ res fok (fun _ => rfl) rfl (fun _ => rfl) (fun _ => rfl)
      (fun _ => rfl) (fun _ => rfl) (fun _ _ => rfl) rfl
  unfold frameEvs frame0Evs
  cases h0 : r0.new_frame <;> cases h1 : r1.new_frame <;> cases audio <;>
    simp [List.countP_append, List.countP_cons, hhon, Ev.isGfxTick0, h0, h1]

/-- The frame events contain the first graphics sink's composite exactly
once on a cpu0 new frame, and never otherwise. -/
theorem countP_frameEvs_composite0 (audio : Bool) (r0 r1 : PpuResult) (res : InputResult)
    (fok : Bool) :
    (frameEvs audio r0 r1 res fok).countP Ev.isGfxComposite0 =
      if r0.new_frame = true then 1 else 0 := by
  have hhon : (honorEvs res fok).countP Ev.isGfxComposite0 = 0 :=
    countP_honorEvs_zero _ res fok (fun _ => rfl) rfl (fun _ => rfl) (fun _ => rfl)
      (fun _ => rfl) (fun _ => rfl) (fun _ _ => rfl) rfl
  unfold frameEvs frame0Evs
  cases h0 : r0.new_frame <;> cases h1 : r1.new_frame <;> cases audio <;>
    simp [List.countP_append, List.countP_cons, hhon, Ev.isGfxComposite0, h0, h1]

/-- The frame events contain exactly one check_input event on a cpu0 new
frame, and none otherwise. -/
theorem countP_frameEvs_checkInput (audio : Bool) (r0 r1 : PpuResult) (res : InputResult)
    (fok : Bool) :
    (frameEvs audio r0 r1 res fok).countP Ev.isCheckInput =
      if r0.new_frame = true then 1 else 0 := by
  unfold frameEvs frame0Evs
  cases h0 : r0.new_frame <;> cases h1 : r1.new_frame <;> cases audio <;>
    simp [List.countP_append, List.countP_cons, countP_honorEvs_checkInput,
      Ev.isCheckInput, h0, h1]

/-- The started flag and cpu1 gamepad across one iteration: on a cpu0 new
frame whose block falls through normally, started is set exactly when it
already was or the copied gamepad has start pressed, and cpu1's gamepad is
the copy of cpu0's with right forced when started was already set; on every
other iteration started is unchanged. -/
theorem iter_started (M : Machine σ γ ω) (audio : Bool) (s : LoopState σ γ ω)
    (h0 : statsSetsEmpty s.stats) (h1 : statsSetsEmpty s.stats1) :
    ∃ (res : InputResult) (fok : Bool),
      ((ppu_result0 M s).new_frame = true → block0Outcome res fok = Outcome.next →
        (iter M audio s).state.started =
          (s.started || (iter M audio s).state.cpu.view.gamepad0.start)
        ∧ (iter M audio s).state.cpu1.view.gamepad0 =
            (if s.started then
              { (iter M audio s).state.cpu.view.gamepad0 with right := true }
             else (iter M audio s).state.cpu.view.gamepad0))
      ∧ (((ppu_result0 M s).new_frame = true → block0Outcome res fok ≠ Outcome.next) →
          (iter M audio s).state.started = s.started) := by
  have hb0 : statsSetsEmpty (preState M audio s).stats := bumpCounters_sets _ _ h0
  have hb1 : statsSetsEmpty (preState M audio s).stats1 := bumpCounters_sets _ _ h1
  obtain ⟨res, fok, ⟨he, ho, hs, hs1, hgp, hngp⟩, hfok⟩ :=
    frameBlock0_spec M audio (preState M audio s) (M.nowF s.world) hb0
  have hfb1 : statsSetsEmpty
      (frameBlock0 M audio (preState M audio s) (M.nowF s.world)).state.stats1 := by
    rw [hs1]; exact hb1
  refine ⟨res, fok, ?_, ?_⟩
  · intro hf0 hnext
    obtain ⟨hg1, hg2⟩ := hgp hnext
    by_cases hf1 : (ppu_result1 M s).new_frame = true
    · obtain ⟨f1e, f1o, f1s1, f1s, f1st, f1cv, f1c1v, _, _, _⟩ :=
        frameBlock1_spec M
          (frameBlock0 M audio (preState M audio s) (M.nowF s.world)).state
          (M.nowF s.world) hfb1
      simp only [iter, hf0, ho, hnext, hf1, if_true]
      rw [f1st, f1cv, f1c1v]
      exact ⟨hg1, hg2⟩
    · have hf1b : (ppu_result1 M s).new_frame = false := by
        revert hf1; cases (ppu_result1 M s).new_frame <;> simp
      simp only [iter, hf0, ho, hnext, hf1b, if_true, Bool.false_eq_true, if_false]
      exact ⟨hg1, hg2⟩
  · intro hno
    by_cases hf0 : (ppu_result0 M s).new_frame = true
    · have hne := hngp (hno hf0)
      rcases hbo : block0Outcome res fok with _ | _ | _
      · exact absurd hbo (hno hf0)
      · simp only [iter, hf0, ho, hbo, if_true]
        exact hne
      · simp only [iter, hf0, ho, hbo, if_true]
        exact hne
    · have hf0b : (ppu_result0 M s).new_frame = false := by
        revert hf0; cases (ppu_result0 M s).new_frame <;> simp
      by_cases hf1 : (ppu_result1 M s).new_frame = true
      · obtain ⟨g1e, g1o, g1s1, g1s, g1st, _, _, _, _, _⟩ :=
          frameBlock1_spec M (preState M audio s) (M.nowF s.world) hb1
        simp only [iter, hf0b, hf1, if_true, Bool.false_eq_true, if_false]
        exact g1st
      · have hf1b : (ppu_result1 M s).new_frame = false := by
          revert hf1; cases (ppu_result1 M s).new_frame <;> simp
        simp only [iter, hf0b, hf1b, Bool.false_eq_true, if_false]
        rfl

/-- Along any run of the executive loop, the four asserted Stats sets of
both statistics records are empty at the top of every iteration. -/
theorem run_stats (M : Machine σ γ ω) (audio : Bool) :
    ∀ n, statsSetsEmpty (run M audio n).1.stats ∧ statsSetsEmpty (run M audio n).1.stats1
  | 0 => by
      constructor <;> simp [run, initState, Stats.new, statsSetsEmpty]
  | n + 1 => by
      obtain ⟨ih0, ih1⟩ := run_stats M audio n
      rcases h2 : (run M audio n).2 with _ | _ | _
      · obtain ⟨res, fok, ⟨_, _, hs, hs1⟩, _⟩ := iter_spec M audio (run M audio n).1 ih0 ih1
        simp [run, h2, hs, hs1]
      · simp [run, h2, ih0, ih1]
      · simp [run, h2, ih0, ih1]

/-! ## The statistics code does not affect the rest of the state -/

/-- cpu.step only reads the core view: the new view is a function of the old
one alone (the trace buffers are write-only for the step). -/
theorem Cpu.step_view (M : Machine σ γ ω) (c : Cpu σ) :
    (Cpu.step M c).view = (M.cpuStepF c.view).view := rfl

/-- The view after the APU step, as a function of the view before. -/
theorem apuStepOn_view (M : Machine σ γ ω) (i : Nat) (c : Cpu σ) :
    (apuStepOn M i c).1.view =
      { c.view with core := M.apuStepF c.view.cy c.view.core } := rfl

/-- The PPU step and interrupt dispatch depend only on the core view. -/
theorem ppuAndInterrupts_view_congr (M : Machine σ γ ω) (i j : Nat) (c d : Cpu σ)
    (h : c.view = d.view) :
    (ppuAndInterrupts M i c).cpu.view = (ppuAndInterrupts M j d).cpu.view := by
  simp only [ppuAndInterrupts, h]
  split
  · rfl
  · split <;> rfl

/-- The PPU step result depends only on the core view. -/
theorem ppuAndInterrupts_result_congr (M : Machine σ γ ω) (i j : Nat) (c d : Cpu σ)
    (h : c.view = d.view) :
    (ppuAndInterrupts M i c).result = (ppuAndInterrupts M j d).result := by
  rw [ppuAndInterrupts_result, ppuAndInterrupts_result, h]

/-- The pre-frame part of the iteration agrees between the full loop and
the statistics-free loop. -/
theorem preState_agree (M : Machine σ γ ω) (audio : Bool) (s : LoopState σ γ ω)
    (t : LoopStateNS σ γ ω) (h : agreeNS s t) :
    agreeNS (preState M audio s) (preStateNS M audio t) := by
  obtain ⟨h1, h2, h3, h4, h5, h6⟩ := h
  have hv0 : (Cpu.step M s.cpu).view = (Cpu.step M t.cpu).view := by
    rw [Cpu.step_view, Cpu.step_view, h1]
  have hv1 : (Cpu.step M s.cpu1).view = (Cpu.step M t.cpu1).view := by
    rw [Cpu.step_view, Cpu.step_view, h2]
  have hp0 : (ppuAndInterrupts M 0 (Cpu.step M s.cpu)).cpu.view
      = (ppuAndInterrupts M 0 (Cpu.step M t.cpu)).cpu.view :=
    ppuAndInterrupts_view_congr M 0 0 _ _ hv0
  have hp1 : (ppuAndInterrupts M 1 (Cpu.step M s.cpu1)).cpu.view
      = (ppuAndInterrupts M 1 (Cpu.step M t.cpu1)).cpu.view :=
    ppuAndInterrupts_view_congr M 1 1 _ _ hv1
  refine ⟨?_, ?_, h3, h4, h5, h6⟩
  · cases audio <;> simp [preState, preStateNS, stepped0, apuStepOn_view, hp0]
  · cases audio <;> simp [preState, preStateNS, stepped1, apuStepOn_view, hp1]

/-- The input poll, honoring and gamepad feeding agree between the full loop
and the statistics-free loop when their inputs agree. -/
theorem inputHonor_agreeNS (M : Machine σ γ ω) (s : LoopState σ γ ω) (t : LoopStateNS σ γ ω)
    (stats : Stats) (cpu cpu1 cpuN cpu1N : Cpu σ) (gfx gfx1 gfxN gfx1N : γ)
    (hc : cpu.view = cpuN.view) (hc1 : cpu1.view = cpu1N.view)
    (hsd : s.started = t.started) (hw : s.world = t.world)
    (hg : gfx = gfxN) (hg1 : gfx1 = gfx1N) :
    agreeNS (inputHonor M s stats cpu cpu1 gfx gfx1).state
        (inputHonorNS M t cpuN cpu1N gfxN gfx1N).1
    ∧ (inputHonor M s stats cpu cpu1 gfx gfx1).outcome
        = (inputHonorNS M t cpuN cpu1N gfxN gfx1N).2 := by
  cases hres : (M.checkInputF cpuN.view.core cpuN.view.gamepad0 t.world).result
  case Continue =>
    simp [inputHonor, inputHonorNS, hc, hc1, hsd, hw, hg, hg1, hres, agreeNS,
      gamepadFeed_view, gamepadFeed_snd]
  case Quit =>
    simp [inputHonor, inputHonorNS, hc, hc1, hsd, hw, hg, hg1, hres, agreeNS]
  case SaveState =>
    cases hfc : (M.fileCreateF (M.checkInputF cpuN.view.core cpuN.view.gamepad0 t.world).world).1
    all_goals
      simp [inputHonor, inputHonorNS, hc, hc1, hsd, hw, hg, hg1, hres, hfc, agreeNS,
        gamepadFeed_view, gamepadFeed_snd]
  case LoadState =>
    cases hfo : (M.fileOpenF (M.checkInputF cpuN.view.core cpuN.view.gamepad0 t.world).world).1
    all_goals
      simp [inputHonor, inputHonorNS, hc, hc1, hsd, hw, hg, hg1, hres, hfo, agreeNS,
        gamepadFeed_view, gamepadFeed_snd]

/-- The cpu0 new-frame block agrees between the full loop and the
statistics-free loop when the states agree and the asserted Stats sets are
empty (so record_fps cannot panic). -/
theorem frameBlock0_agree (M : Machine σ γ ω) (audio : Bool) (s : LoopState σ γ ω)
    (t : LoopStateNS σ γ ω) (now : Rat)
    (hst : statsSetsEmpty s.stats) (h : agreeNS s t) :
    agreeNS (frameBlock0 M audio s now).state (frameBlock0NS M audio t).1
    ∧ (frameBlock0 M audio s now).outcome = (frameBlock0NS M audio t).2 := by
  obtain ⟨st2, hsome, hst2⟩ :=
    record_fps_of_empty (swapBuffers s.stats s.cpu).1 now hst.1 hst.2.1 hst.2.2.1 hst.2.2.2
  obtain ⟨h1, h2, h3, h4, h5, h6⟩ := h
  simp only [frameBlock0, hsome, frameBlock0NS]
  apply inputHonor_agreeNS M s t st2
  · cases audio <;> simp [swapBuffers, h1, h4]
  · simp [h2, h5]
  · exact h3
  · exact h6
  · simp [swapBuffers, h1, h4]
  · simp [h2, h5]

/-- One iteration agrees between the full loop and the statistics-free
loop: from agreeing states with empty asserted Stats sets, the resulting
states agree and the outcomes coincide. -/
theorem iter_agree (M : Machine σ γ ω) (audio : Bool) (s : LoopState σ γ ω)
    (t : LoopStateNS σ γ ω) (h : agreeNS s t)
    (h0 : statsSetsEmpty s.stats) (h1 : statsSetsEmpty s.stats1) :
    agreeNS (iter M audio s).state (iterNS M audio t).1
    ∧ (iter M audio s).outcome = (iterNS M audio t).2 := by
  have hpre := preState_agree M audio s t h
  have hb0 : statsSetsEmpty (preState M audio s).stats := bumpCounters_sets _ _ h0
  have hb1 : statsSetsEmpty (preState M audio s).stats1 := bumpCounters_sets _ _ h1
  have hres0 : ppu_result0 M s = (ppuAndInterrupts M 0 (Cpu.step M t.cpu)).result := by
    unfold ppu_result0 stepped0
    exact ppuAndInterrupts_result_congr M 0 0 _ _ (by rw [Cpu.step_view, Cpu.step_view, h.1])
  obtain ⟨hfba, hfbo⟩ :=
    frameBlock0_agree M audio (preState M audio s) (preStateNS M audio t) (M.nowF s.world)
      hb0 hpre
  have hwe : (preStateNS M audio t).world = s.world := by
    have : (preStateNS M audio t).world = t.world := rfl
    rw [this, ← h.2.2.2.2.2]
  by_cases hf0 : (ppu_result0 M s).new_frame = true
  · have hf0N : (ppuAndInterrupts M 0 (Cpu.step M t.cpu)).result.new_frame = true := by
      rw [← hres0]; exact hf0
    have hfb1e : statsSetsEmpty
        (frameBlock0 M audio (preState M audio s) (M.nowF s.world)).state.stats1 := by
      obtain ⟨res, fok, ⟨_, _, _, hstats1, _, _⟩, _⟩ :=
        frameBlock0_spec M audio (preState M audio s) (M.nowF s.world) hb0
      rw [hstats1]; exact hb1
    obtain ⟨a1, a2, a3, a4, a5, a6⟩ := hfba
    rcases hoc : (frameBlock0 M audio (preState M audio s) (M.nowF s.world)).outcome
      with _ | _ | _
    · by_cases hf1 : (ppu_result1 M s).new_frame = true
      · obtain ⟨f1e, f1o, f1s1, f1s, f1st, f1cv, f1c1v, f1g, f1g1, f1w⟩ :=
          frameBlock1_spec M
            (frameBlock0 M audio (preState M audio s) (M.nowF s.world)).state
            (M.nowF s.world) hfb1e
        simp only [iter, iterNS, hf0, hf0N, hoc, hf1, if_true]
        refine ⟨⟨?_, ?_, ?_, ?_, ?_, ?_⟩, ?_⟩
        · rw [f1cv]; exact a1
        · rw [f1c1v]; exact a2
        · rw [f1st]; exact a3
        · rw [f1g]; exact a4
        · rw [f1g1]; exact a5
        · rw [f1w]; exact a6
        · rw [f1o, ← hfbo, hoc]
      · have hf1b : (ppu_result1 M s).new_frame = false := by
          revert hf1; cases (ppu_result1 M s).new_frame <;> simp
        simp only [iter, iterNS, hf0, hf0N, hoc, hf1b, if_true, Bool.false_eq_true, if_false]
        refine ⟨⟨a1, a2, a3, a4, a5, a6⟩, ?_⟩
        rw [← hfbo, hoc]
    · simp only [iter, iterNS, hf0, hf0N, hoc, if_true]
      exact ⟨⟨a1, a2, a3, a4, a5, a6⟩, by rw [← hfbo, hoc]⟩
    · simp only [iter, iterNS, hf0, hf0N, hoc, if_true]
      exact ⟨⟨a1, a2, a3, a4, a5, a6⟩, by rw [← hfbo, hoc]⟩
  · have hf0b : (ppu_result0 M s).new_frame = false := by
      revert hf0; cases (ppu_result0 M s).new_frame <;> simp
    have hf0Nb : (ppuAndInterrupts M 0 (Cpu.step M t.cpu)).result.new_frame = false := by
      rw [← hres0]; exact hf0b
    obtain ⟨p1, p2, p3, p4, p5, p6⟩ := hpre
    by_cases hf1 : (ppu_result1 M s).new_frame = true
    · obtain ⟨g1e, g1o, g1s1, g1s, g1st, g1cv, g1c1v, g1g, g1g1, g1w⟩ :=
        frameBlock1_spec M (preState M audio s) (M.nowF s.world) hb1
      simp only [iter, iterNS, hf0b, hf0Nb, hf1, if_true, Bool.false_eq_true, if_false]
      refine ⟨⟨?_, ?_, ?_, ?_, ?_, ?_⟩, ?_⟩
      · rw [g1cv]; exact p1
      · rw [g1c1v]; exact p2
      · rw [g1st]; exact p3
      · rw [g1g]; exact p4
      · rw [g1g1]; exact p5
      · rw [g1w]; exact p6
      · simp [g1o]
    · have hf1b : (ppu_result1 M s).new_frame = false := by
        revert hf1; cases (ppu_result1 M s).new_frame <;> simp
      simp only [iter, iterNS, hf0b, hf0Nb, hf1b, Bool.false_eq_true, if_false]
      exact ⟨⟨p1, p2, p3, p4, p5, p6⟩, trivial⟩

/-- Along any pair of runs of the full loop and the statistics-free loop,
the states agree (outside the statistics records and trace buffers) and the
outcomes coincide at every step. -/
theorem run_agree (M : Machine σ γ ω) (audio : Bool) :
    ∀ n, agreeNS (run M audio n).1 (runNS M audio n).1
      ∧ (run M audio n).2 = (runNS M audio n).2
  | 0 => by
      constructor
      · exact ⟨rfl, rfl, rfl, rfl, rfl, rfl⟩
      · rfl
  | n + 1 => by
      obtain ⟨ha, ho⟩ := run_agree M audio n
      obtain ⟨i0, i1⟩ := run_stats M audio n
      rcases h2 : (run M audio n).2 with _ | _ | _
      · have h2N : (runNS M audio n).2 = Outcome.next := by rw [← ho]; exact h2
        obtain ⟨ja, jo⟩ := iter_agree M audio (run M audio n).1 (runNS M audio n).1 ha i0 i1
        simp only [run, runNS, h2, h2N]
        exact ⟨ja, jo⟩
      · have h2N : (runNS M audio n).2 = Outcome.exited := by rw [← ho]; exact h2
        simp only [run, runNS, h2, h2N]
        exact ⟨ha, trivial⟩
      · have h2N : (runNS M audio n).2 = Outcome.panicked := by rw [← ho]; exact h2
        simp only [run, runNS, h2, h2N]
        exact ⟨ha, trivial⟩

/-! ## The claims -/

/-- C9: At every call to record_fps along any run of the executive loop, the
Stats fields addrs_visited, addrs_not_visited, memory_reads and
memory_writes are empty sets, so the four assert! statements in record_fps
never fail: the sets are empty at the top of every iteration for both
statistics records (they start empty at construction), they are unchanged by
the trace-buffer swap that immediately precedes each call, and record_fps
returns normally leaving them empty again (replaced with fresh defaults). -/
theorem C9_record_fps_asserts_never_fail (M : Machine σ γ ω) (audio : Bool) (n : Nat) :
    statsSetsEmpty (run M audio n).1.stats
    ∧ statsSetsEmpty (run M audio n).1.stats1
    ∧ (∀ now : Rat, ∃ st2,
        record_fps (swapBuffers (run M audio n).1.stats (run M audio n).1.cpu).1 now = some st2
        ∧ statsSetsEmpty st2)
    ∧ (∀ now : Rat, ∃ st2,
        record_fps (swapBuffers (run M audio n).1.stats1 (run M audio n).1.cpu1).1 now
          = some st2
        ∧ statsSetsEmpty st2) := by
  obtain ⟨h0, h1⟩ := run_stats M audio n
  refine ⟨h0, h1, ?_, ?_⟩
  · intro now
    exact record_fps_of_empty _ now h0.1 h0.2.1 h0.2.2.1 h0.2.2.2
  · intro now
    exact record_fps_of_empty _ now h1.1 h1.2.1 h1.2.2.1 h1.2.2.2

/-- C8: The statistics collection (the step and conditional-jump counters,
the per-frame swaps of the branches_taken / branches_not_taken and loads /
stores trace buffers, and the record_fps calls) does not affect CPU
behavior: for any collaborator machine, audio setting and input sequence
(all encoded in M), after any number n of loop iterations the loop-visible
CPU state of both NES instances — the register file and memory inside the
opaque core, the cycle counter cy, the conditional_jump flag and the gamepad
— and the loop outcome are identical between the full loop (run) and the
loop with all statistics code removed (runNS). -/
theorem C8_statistics_noninterference (M : Machine σ γ ω) (audio : Bool) (n : Nat) :
    (run M audio n).1.cpu.view = (runNS M audio n).1.cpu.view
    ∧ (run M audio n).1.cpu1.view = (runNS M audio n).1.cpu1.view
    ∧ (run M audio n).2 = (runNS M audio n).2 := by
  obtain ⟨⟨a1, a2, _, _, _, _⟩, ho⟩ := run_agree M audio n
  exact ⟨a1, a2, ho⟩

/-- C2: For every loop iteration (from any state the loop actually reaches),
cpu0's PPU step event is emitted, cpu.nmi() is called exactly when the PPU
step result has vblank_nmi set, cpu.irq() is called exactly when vblank_nmi
is unset and scanline_irq is set, and never both in one iteration (lines
282–287 of src/src/lib.rs). -/
theorem C2_interrupt_dispatch (M : Machine σ γ ω) (audio : Bool) (n : Nat)
    (s : LoopState σ γ ω) (hrun : run M audio n = (s, Outcome.next)) :
    Ev.ppuStep 0 (stepped0 M s).view.cy (ppu_result0 M s) ∈ (iter M audio s).events
    ∧ (Ev.nmi 0 ∈ (iter M audio s).events ↔ (ppu_result0 M s).vblank_nmi = true)
    ∧ (Ev.irq 0 ∈ (iter M audio s).events ↔
        ((ppu_result0 M s).vblank_nmi = false ∧ (ppu_result0 M s).scanline_irq = true))
    ∧ ¬(Ev.nmi 0 ∈ (iter M audio s).events ∧ Ev.irq 0 ∈ (iter M audio s).events) := by
  have hstats := run_stats M audio n
  rw [hrun] at hstats
  obtain ⟨res, fok, ⟨he, _, _, _⟩, _⟩ := iter_spec M audio s hstats.1 hstats.2
  rw [he]
  simp [mem_intEvs, mem_apuEvs, mem_frame0Evs, mem_frameEvs, mem_honorEvs]
  intro h1 h2
  rw [h1] at h2
  exact absurd h2 (by decide)

/-- C7: In every iteration, the first three events are cpu.step() of cpu0,
cpu.step() of cpu1, and cpu0's PPU step, whose cycle argument is exactly the
cycle counter produced by the cpu.step() oracle applied to cpu0's view at
the top of the iteration — the statements interleaved between lines 263 and
282 of src/src/lib.rs (the statistics counters) do not modify cy.  No
cpu.step event follows, so the interrupts dispatched from that PPU step (the
head of the remaining trace when one is raised) are delivered before the
next cpu.step() call, which belongs to the next iteration. -/
theorem C7_cycle_snapshot_and_interrupt_delivery (M : Machine σ γ ω) (audio : Bool)
    (n : Nat) (s : LoopState σ γ ω) (hrun : run M audio n = (s, Outcome.next)) :
    ∃ tail,
      (iter M audio s).events =
        Ev.cpuStep 0 :: Ev.cpuStep 1 ::
          Ev.ppuStep 0 (M.cpuStepF s.cpu.view).view.cy (ppu_result0 M s) :: tail
      ∧ (∀ i, Ev.cpuStep i ∉ tail)
      ∧ ((ppu_result0 M s).vblank_nmi = true → tail.head? = some (Ev.nmi 0))
      ∧ ((ppu_result0 M s).vblank_nmi = false → (ppu_result0 M s).scanline_irq = true →
          tail.head? = some (Ev.irq 0)) := by
  have hstats := run_stats M audio n
  rw [hrun] at hstats
  obtain ⟨res, fok, ⟨he, _, _, _⟩, _⟩ := iter_spec M audio s hstats.1 hstats.2
  refine ⟨intEvs 0 (ppu_result0 M s)
    ++ [Ev.ppuStep 1 (stepped1 M s).view.cy (ppu_result1 M s)] ++ intEvs 1 (ppu_result1 M s)
    ++ apuEvs audio (dispatched0 M s).cy (dispatched1 M s).cy
    ++ frameEvs audio (ppu_result0 M s) (ppu_result1 M s) res fok, ?_, ?_, ?_, ?_⟩
  · rw [he]
    simp [stepped0, Cpu.step]
  · intro i
    simp [mem_intEvs, mem_apuEvs, mem_frame0Evs, mem_frameEvs, mem_honorEvs]
  · intro hv
    simp [intEvs, hv]
  · intro hv hs2
    simp [intEvs, hv, hs2]

/-- C1: In every iteration of the executive loop's steady state, the
operations occur in this order: the cpu.step() calls first (cpu0 on line
263, then cpu1 on line 264 of src/src/lib.rs), then ppu.step called with
the CPU's cycle counter (the ppuStep event's payload is cpu.cy after the
step), then the interrupts dispatched from the PPU result (intEvs), then
apu.step called with the CPU's cycle counter, and only then — when the PPU
result reports a new frame — the frame presentation, the audio push and the
input poll with its honoring (frame0Evs), followed by the cpu1 frame
bookkeeping.  The audio feature configuration is not part of the given
sources; following the spec's executive-loop contract, the build with the
audio feature enabled is modelled (audio := true). -/
theorem C1_steady_state_order (M : Machine σ γ ω) (n : Nat)
    (s : LoopState σ γ ω) (hrun : run M true n = (s, Outcome.next)) :
    ∃ (res : InputResult) (fok : Bool),
      (iter M true s).events =
        [Ev.cpuStep 0, Ev.cpuStep 1,
         Ev.ppuStep 0 (stepped0 M s).view.cy (ppu_result0 M s)] ++ intEvs 0 (ppu_result0 M s)
        ++ [Ev.ppuStep 1 (stepped1 M s).view.cy (ppu_result1 M s)]
        ++ intEvs 1 (ppu_result1 M s)
        ++ [Ev.apuStep 0 (dispatched0 M s).cy, Ev.apuStep 1 (dispatched1 M s).cy]
        ++ (if (ppu_result0 M s).new_frame then
              frame0Evs true res fok
              ++ (if block0Outcome res fok = Outcome.next ∧ (ppu_result1 M s).new_frame
                  then [Ev.recordFps 1] else [])
            else if (ppu_result1 M s).new_frame then [Ev.recordFps 1] else [])
      ∧ (iter M true s).outcome =
          iterOutcome (ppu_result0 M s) (ppu_result1 M s) res fok := by
  have hstats := run_stats M true n
  rw [hrun] at hstats
  obtain ⟨res, fok, ⟨he, ho, _, _⟩, _⟩ := iter_spec M true s hstats.1 hstats.2
  refine ⟨res, fok, ?_, ho⟩
  rw [he]
  simp [apuEvs, frameEvs]

/-- C6: On every iteration of the executive loop, apu.step is invoked with
the CPU's cumulative cycle counter (the payload of the apuStep event is
cpu.cy as it stands after interrupt dispatch, which is dispatched0), after
the interrupt dispatch (the intEvs precede the apuStep events) and before
the new-frame handling (the frame events all follow, and contain no apuStep
event).  The audio feature configuration is not part of the given sources;
following the spec's executive-loop contract, the build with the audio
feature enabled is modelled (audio := true). -/
theorem C6_apu_step_placement (M : Machine σ γ ω) (n : Nat)
    (s : LoopState σ γ ω) (hrun : run M true n = (s, Outcome.next)) :
    ∃ (res : InputResult) (fok : Bool),
      (iter M true s).events =
        ([Ev.cpuStep 0, Ev.cpuStep 1,
          Ev.ppuStep 0 (stepped0 M s).view.cy (ppu_result0 M s)]
          ++ intEvs 0 (ppu_result0 M s)
          ++ [Ev.ppuStep 1 (stepped1 M s).view.cy (ppu_result1 M s)]
          ++ intEvs 1 (ppu_result1 M s))
        ++ [Ev.apuStep 0 (dispatched0 M s).cy, Ev.apuStep 1 (dispatched1 M s).cy]
        ++ frameEvs true (ppu_result0 M s) (ppu_result1 M s) res fok
      ∧ (∀ i c, Ev.apuStep i c ∉
          frameEvs true (ppu_result0 M s) (ppu_result1 M s) res fok) := by
  have hstats := run_stats M true n
  rw [hrun] at hstats
  obtain ⟨res, fok, ⟨he, _, _, _⟩, _⟩ := iter_spec M true s hstats.1 hstats.2
  refine ⟨res, fok, ?_, ?_⟩
  · rw [he]
    simp [apuEvs]
  · intro i c
    simp [mem_frameEvs, mem_frame0Evs, mem_honorEvs]

/-- C4: The executive loop exits (break, modelled as Outcome.exited) when
and only when check_input() returns Quit, and check_input() is invoked only
inside the cpu0 new-frame branch, so the loop can exit only at a frame
boundary; when it exits, the break event is the last event and the CPU, PPU
and APU advances of the iteration all precede it, so no instruction is
interrupted mid-execution.  (A Rust panic — Outcome.panicked — is an abort,
not a loop exit.) -/
theorem C4_exit_only_on_quit (M : Machine σ γ ω) (audio : Bool) (n : Nat)
    (s : LoopState σ γ ω) (hrun : run M audio n = (s, Outcome.next)) :
    ((iter M audio s).outcome = Outcome.exited ↔
      Ev.checkInput InputResult.Quit ∈ (iter M audio s).events)
    ∧ (∀ r, Ev.checkInput r ∈ (iter M audio s).events →
        (ppu_result0 M s).new_frame = true)
    ∧ ((iter M audio s).outcome = Outcome.exited →
        ∃ l, (iter M audio s).events = l ++ [Ev.breakEv]
          ∧ Ev.cpuStep 0 ∈ l ∧ Ev.cpuStep 1 ∈ l
          ∧ Ev.ppuStep 0 (stepped0 M s).view.cy (ppu_result0 M s) ∈ l
          ∧ Ev.ppuStep 1 (stepped1 M s).view.cy (ppu_result1 M s) ∈ l
          ∧ (audio = true → Ev.apuStep 0 (dispatched0 M s).cy ∈ l
              ∧ Ev.apuStep 1 (dispatched1 M s).cy ∈ l)) := by
  have hstats := run_stats M audio n
  rw [hrun] at hstats
  obtain ⟨res, fok, ⟨he, ho, _, _⟩, _⟩ := iter_spec M audio s hstats.1 hstats.2
  refine ⟨?_, ?_, ?_⟩
  · rw [he, ho]
    unfold iterOutcome
    cases h0 : (ppu_result0 M s).new_frame
    · simp [mem_intEvs, mem_apuEvs, mem_frameEvs, mem_frame0Evs, mem_honorEvs, h0]
    · rcases res with _ | _ | _ | _ <;> cases fok <;>
        simp [mem_intEvs, mem_apuEvs, mem_frameEvs, mem_frame0Evs, mem_honorEvs, h0,
          block0Outcome]
  · intro r hr
    rw [he] at hr
    simp [mem_intEvs, mem_apuEvs, mem_frameEvs, mem_frame0Evs, mem_honorEvs] at hr
    tauto
  · intro hex
    rw [ho] at hex
    unfold iterOutcome at hex
    cases h0 : (ppu_result0 M s).new_frame
    · rw [h0] at hex
      simp at hex
    · rw [h0] at hex
      simp at hex
      have hq : res = InputResult.Quit := by
        rcases res with _ | _ | _ | _
        · simp [block0Outcome] at hex
        · rfl
        · simp [block0Outcome] at hex
          split at hex <;> simp_all
        · simp [block0Outcome] at hex
          split at hex <;> simp_all
      subst hq
      refine ⟨[Ev.cpuStep 0, Ev.cpuStep 1,
          Ev.ppuStep 0 (stepped0 M s).view.cy (ppu_result0 M s)]
          ++ intEvs 0 (ppu_result0 M s)
          ++ [Ev.ppuStep 1 (stepped1 M s).view.cy (ppu_result1 M s)]
          ++ intEvs 1 (ppu_result1 M s)
          ++ apuEvs audio (dispatched0 M s).cy (dispatched1 M s).cy
          ++ [Ev.gfxTick 0, Ev.gfxComposite 0, Ev.gfxTick 1, Ev.gfxComposite 1,
              Ev.recordFps 0]
          ++ (if audio = true then [Ev.playChannels 0] else [])
          ++ [Ev.checkInput InputResult.Quit], ?_, ?_, ?_, ?_, ?_, ?_⟩
      · rw [he]
        simp [frameEvs, frame0Evs, honorEvs, block0Outcome, h0]
      · simp
      · simp
      · simp
      · simp
      · intro ha
        subst ha
        simp [mem_apuEvs]

/-- C5: On every loop iteration whose cpu0 PPU step result has new_frame
true (and with the host file operations succeeding, so that save / load can
complete), the first graphics sink's tick() and composite() are each called
exactly once, accumulated audio is pushed via play_channels() when the
audio feature is on, and check_input() is called exactly once and its
result honored: Continue falls through to the next iteration, Quit exits
the loop, SaveState performs cpu.save and continues, LoadState performs
cpu.load and continues.  On iterations without a cpu0 new frame, none of
these calls occur. -/
theorem C5_frame_actions (M : Machine σ γ ω) (audio : Bool) (n : Nat)
    (s : LoopState σ γ ω) (hrun : run M audio n = (s, Outcome.next))
    (hfiles : filesOk M) :
    ∃ (res : InputResult),
      ((ppu_result0 M s).new_frame = true →
        (iter M audio s).events.countP Ev.isGfxTick0 = 1
        ∧ (iter M audio s).events.countP Ev.isGfxComposite0 = 1
        ∧ (audio = true → Ev.playChannels 0 ∈ (iter M audio s).events)
        ∧ (iter M audio s).events.countP Ev.isCheckInput = 1
        ∧ Ev.checkInput res ∈ (iter M audio s).events
        ∧ (res = InputResult.Continue → (iter M audio s).outcome = Outcome.next)
        ∧ (res = InputResult.Quit ↔ (iter M audio s).outcome = Outcome.exited)
        ∧ (res = InputResult.SaveState →
            Ev.cpuSave 0 ∈ (iter M audio s).events
            ∧ (iter M audio s).outcome = Outcome.next)
        ∧ (res = InputResult.LoadState →
            Ev.cpuLoad 0 ∈ (iter M audio s).events
            ∧ (iter M audio s).outcome = Outcome.next))
      ∧ ((ppu_result0 M s).new_frame = false →
          (iter M audio s).events.countP Ev.isGfxTick0 = 0
          ∧ (iter M audio s).events.countP Ev.isGfxComposite0 = 0
          ∧ (∀ i, Ev.playChannels i ∉ (iter M audio s).events)
          ∧ (iter M audio s).events.countP Ev.isCheckInput = 0) := by
  have hstats := run_stats M audio n
  rw [hrun] at hstats
  obtain ⟨res, fok, ⟨he, ho, _, _⟩, hfok, _, _⟩ := iter_spec M audio s hstats.1 hstats.2
  have hfokT : fok = true := hfok hfiles
  subst hfokT
  have htick0 :
      ([Ev.cpuStep 0, Ev.cpuStep 1,
        Ev.ppuStep 0 (stepped0 M s).view.cy (ppu_result0 M s)] ++ intEvs 0 (ppu_result0 M s)
        ++ [Ev.ppuStep 1 (stepped1 M s).view.cy (ppu_result1 M s)]
        ++ intEvs 1 (ppu_result1 M s)
        ++ apuEvs audio (dispatched0 M s).cy (dispatched1 M s).cy).countP Ev.isGfxTick0
        = 0 := by
    simp [List.countP_append, List.countP_cons,
      countP_intEvs_zero Ev.isGfxTick0 0 _ rfl rfl, countP_intEvs_zero Ev.isGfxTick0 1 _ rfl rfl,
      countP_apuEvs_zero Ev.isGfxTick0 audio _ _ (fun _ _ => rfl), Ev.isGfxTick0]
  have hcomp0 :
      ([Ev.cpuStep 0, Ev.cpuStep 1,
        Ev.ppuStep 0 (stepped0 M s).view.cy (ppu_result0 M s)] ++ intEvs 0 (ppu_result0 M s)
        ++ [Ev.ppuStep 1 (stepped1 M s).view.cy (ppu_result1 M s)]
        ++ intEvs 1 (ppu_result1 M s)
        ++ apuEvs audio (dispatched0 M s).cy (dispatched1 M s).cy).countP Ev.isGfxComposite0
        = 0 := by
    simp [List.countP_append, List.countP_cons,
      countP_intEvs_zero Ev.isGfxComposite0 0 _ rfl rfl,
      countP_intEvs_zero Ev.isGfxComposite0 1 _ rfl rfl,
      countP_apuEvs_zero Ev.isGfxComposite0 audio _ _ (fun _ _ => rfl), Ev.isGfxComposite0]
  have hchk0 :
      ([Ev.cpuStep 0, Ev.cpuStep 1,
        Ev.ppuStep 0 (stepped0 M s).view.cy (ppu_result0 M s)] ++ intEvs 0 (ppu_result0 M s)
        ++ [Ev.ppuStep 1 (stepped1 M s).view.cy (ppu_result1 M s)]
        ++ intEvs 1 (ppu_result1 M s)
        ++ apuEvs audio (dispatched0 M s).cy (dispatched1 M s).cy).countP Ev.isCheckInput
        = 0 := by
    simp [List.countP_append, List.countP_cons,
      countP_intEvs_zero Ev.isCheckInput 0 _ rfl rfl,
      countP_intEvs_zero Ev.isCheckInput 1 _ rfl rfl,
      countP_apuEvs_zero Ev.isCheckInput audio _ _ (fun _ _ => rfl), Ev.isCheckInput]
  refine ⟨res, ?_, ?_⟩
  · intro h0
    refine ⟨?_, ?_, ?_, ?_, ?_, ?_, ?_, ?_, ?_⟩
    · rw [he]
      rw [List.countP_append, htick0, countP_frameEvs_tick0, h0]
      simp
    · rw [he]
      rw [List.countP_append, hcomp0, countP_frameEvs_composite0, h0]
      simp
    · intro haud
      rw [he]
      simp [mem_frameEvs, mem_frame0Evs, h0, haud]
    · rw [he]
      rw [List.countP_append, hchk0, countP_frameEvs_checkInput, h0]
      simp
    · rw [he]
      simp [mem_frameEvs, mem_frame0Evs, mem_honorEvs, h0]
    · intro hres
      subst hres
      rw [ho]
      simp [iterOutcome, block0Outcome, h0]
    · rw [ho]
      unfold iterOutcome
      rw [h0]
      rcases res with _ | _ | _ | _ <;> simp [block0Outcome]
    · intro hres
      subst hres
      constructor
      · rw [he]
        simp [mem_frameEvs, mem_frame0Evs, mem_honorEvs, h0]
      · rw [ho]
        simp [iterOutcome, block0Outcome, h0]
    · intro hres
      subst hres
      constructor
      · rw [he]
        simp [mem_frameEvs, mem_frame0Evs, mem_honorEvs, h0]
      · rw [ho]
        simp [iterOutcome, block0Outcome, h0]
  · intro h0
    refine ⟨?_, ?_, ?_, ?_⟩
    · rw [he]
      rw [List.countP_append, htick0, countP_frameEvs_tick0, h0]
      simp
    · rw [he]
      rw [List.countP_append, hcomp0, countP_frameEvs_composite0, h0]
      simp
    · intro i
      rw [he]
      simp [mem_intEvs, mem_apuEvs, mem_frameEvs, mem_frame0Evs, mem_honorEvs, h0]
    · rw [he]
      rw [List.countP_append, hchk0, countP_frameEvs_checkInput, h0]
      simp

/-- C3 counterexample: on the machine Mbad — a new frame every iteration,
check_input returning SaveState, every File::create and File::open failing —
the very first iteration receives SaveState at a frame boundary and the file
operation fails; contrary to the claim, no status-line call is made at all
and the loop does not continue: the unwrap panics and the iteration ends in
Outcome.panicked. -/
theorem C3_counterexample :
    Ev.checkInput InputResult.SaveState ∈ (iter Mbad true (initState Mbad)).events
    ∧ Ev.fileCreate false ∈ (iter Mbad true (initState Mbad)).events
    ∧ (iter Mbad true (initState Mbad)).events.countP Ev.isStatusSet = 0
    ∧ (iter Mbad true (initState Mbad)).outcome = Outcome.panicked := by
  decide

/-- C3 amended: when a SaveState or LoadState input is received at a frame
boundary, the loop unwraps File::create / File::open; if the file operation
fails the emulator panics — no status-line report is made and the loop does
not continue — and only if it succeeds is cpu.save / cpu.load performed,
the status line set ("Saved state" / "Loaded state") and the loop continued.
The final conjunct ties the file-success flag to the machine: if every
File::create fails, a SaveState frame has fok = false. -/
theorem C3_amended_save_load (M : Machine σ γ ω) (audio : Bool) (n : Nat)
    (s : LoopState σ γ ω) (hrun : run M audio n = (s, Outcome.next))
    (hnf : (ppu_result0 M s).new_frame = true) :
    ∃ (res : InputResult) (fok : Bool),
      Ev.checkInput res ∈ (iter M audio s).events
      ∧ (res = InputResult.SaveState → fok = false →
          (iter M audio s).outcome = Outcome.panicked
          ∧ (iter M audio s).events.countP Ev.isStatusSet = 0)
      ∧ (res = InputResult.SaveState → fok = true →
          (iter M audio s).outcome = Outcome.next
          ∧ Ev.cpuSave 0 ∈ (iter M audio s).events
          ∧ Ev.statusSet 0 "Saved state" ∈ (iter M audio s).events)
      ∧ (res = InputResult.LoadState → fok = false →
          (iter M audio s).outcome = Outcome.panicked
          ∧ (iter M audio s).events.countP Ev.isStatusSet = 0)
      ∧ (res = InputResult.LoadState → fok = true →
          (iter M audio s).outcome = Outcome.next
          ∧ Ev.cpuLoad 0 ∈ (iter M audio s).events
          ∧ Ev.statusSet 0 "Loaded state" ∈ (iter M audio s).events)
      ∧ ((∀ w, (M.fileCreateF w).1 = false) → res = InputResult.SaveState → fok = false)
      ∧ ((∀ w, (M.fileOpenF w).1 = false) → res = InputResult.LoadState → fok = false) := by
  have hstats := run_stats M audio n
  rw [hrun] at hstats
  obtain ⟨res, fok, ⟨he, ho, _, _⟩, _, hbadc, hbado⟩ := iter_spec M audio s hstats.1 hstats.2
  have hstatus0 :
      ([Ev.cpuStep 0, Ev.cpuStep 1,
        Ev.ppuStep 0 (stepped0 M s).view.cy (ppu_result0 M s)] ++ intEvs 0 (ppu_result0 M s)
        ++ [Ev.ppuStep 1 (stepped1 M s).view.cy (ppu_result1 M s)]
        ++ intEvs 1 (ppu_result1 M s)
        ++ apuEvs audio (dispatched0 M s).cy (dispatched1 M s).cy).countP Ev.isStatusSet
        = 0 := by
    simp [List.countP_append, List.countP_cons,
      countP_intEvs_zero Ev.isStatusSet 0 _ rfl rfl,
      countP_intEvs_zero Ev.isStatusSet 1 _ rfl rfl,
      countP_apuEvs_zero Ev.isStatusSet audio _ _ (fun _ _ => rfl), Ev.isStatusSet]
  refine ⟨res, fok, ?_, ?_, ?_, ?_, ?_, hbadc, hbado⟩
  · rw [he]
    simp [mem_frameEvs, mem_frame0Evs, mem_honorEvs, hnf]
  · intro hres hfokv
    subst hres
    subst hfokv
    constructor
    · rw [ho]
      simp [iterOutcome, block0Outcome, hnf]
    · rw [he]
      rw [List.countP_append, hstatus0]
      unfold frameEvs frame0Evs
      cases h1 : (ppu_result1 M s).new_frame <;> cases audio <;>
        simp [List.countP_append, List.countP_cons, hnf, h1, block0Outcome,
          honorEvs, Ev.isStatusSet]
  · intro hres hfokv
    subst hres
    subst hfokv
    refine ⟨?_, ?_, ?_⟩
    · rw [ho]
      simp [iterOutcome, block0Outcome, hnf]
    · rw [he]
      simp [mem_frameEvs, mem_frame0Evs, mem_honorEvs, hnf]
    · rw [he]
      simp [mem_frameEvs, mem_frame0Evs, mem_honorEvs, hnf]
  · intro hres hfokv
    subst hres
    subst hfokv
    constructor
    · rw [ho]
      simp [iterOutcome, block0Outcome, hnf]
    · rw [he]
      rw [List.countP_append, hstatus0]
      unfold frameEvs frame0Evs
      cases h1 : (ppu_result1 M s).new_frame <;> cases audio <;>
        simp [List.countP_append, List.countP_cons, hnf, h1, block0Outcome,
          honorEvs, Ev.isStatusSet]
  · intro hres hfokv
    subst hres
    subst hfokv
    refine ⟨?_, ?_, ?_⟩
    · rw [ho]
      simp [iterOutcome, block0Outcome, hnf]
    · rw [he]
      simp [mem_frameEvs, mem_frame0Evs, mem_honorEvs, hnf]
    · rw [he]
      simp [mem_frameEvs, mem_frame0Evs, mem_honorEvs, hnf]

/-- C10 counterexample: on the machine Mquit — a new frame every iteration,
check_input returning Quit, cpu0's gamepad holding the a button while cpu1's
holds nothing — the first iteration is a cpu0 new frame, yet cpu1's gamepad
is NOT overwritten with a clone of cpu0's: the break on Quit (line 329 of
src/src/lib.rs) leaves the loop before the copy on line 343, so cpu1's
gamepad still holds its initial value, different from cpu0's. -/
theorem C10_counterexample :
    (ppu_result0 Mquit (initState Mquit)).new_frame = true
    ∧ (iter Mquit true (initState Mquit)).state.cpu.view.gamepad0 = { gpOff with a := true }
    ∧ (iter Mquit true (initState Mquit)).state.cpu1.view.gamepad0 = gpOff
    ∧ (iter Mquit true (initState Mquit)).state.cpu1.view.gamepad0
        ≠ (iter Mquit true (initState Mquit)).state.cpu.view.gamepad0 := by
  decide

/-- C10 amended: the started flag is monotone — it is initially false, never
reset, and becomes true on the first cpu0 new-frame whose block completes
its input-feeding section (that is, is not cut short by a Quit break or a
panic) with the copied gamepad state having start pressed.  On every such
completed cpu0 new-frame, cpu1's gamepad state is overwritten with a clone
of cpu0's, and when started was already true the copy's right button is then
forced to true; on every other iteration (including Quit and panic frames,
where the break or unwind skips lines 343–352) started and the feeding are
untouched. -/
theorem C10_amended_started_feed (M : Machine σ γ ω) (audio : Bool) (n : Nat)
    (s : LoopState σ γ ω) (hrun : run M audio n = (s, Outcome.next)) :
    (initState M).started = false
    ∧ (s.started = true → (iter M audio s).state.started = true)
    ∧ ∃ (res : InputResult) (fok : Bool),
        ((ppu_result0 M s).new_frame = true → block0Outcome res fok = Outcome.next →
          (iter M audio s).state.started =
            (s.started || (iter M audio s).state.cpu.view.gamepad0.start)
          ∧ (iter M audio s).state.cpu1.view.gamepad0 =
              (if s.started then
                { (iter M audio s).state.cpu.view.gamepad0 with right := true }
               else (iter M audio s).state.cpu.view.gamepad0))
        ∧ (((ppu_result0 M s).new_frame = true → block0Outcome res fok ≠ Outcome.next) →
            (iter M audio s).state.started = s.started) := by
  have hstats := run_stats M audio n
  rw [hrun] at hstats
  obtain ⟨res, fok, hyes, hno⟩ := iter_started M audio s hstats.1 hstats.2
  refine ⟨rfl, ?_, res, fok, hyes, hno⟩
  intro hst
  by_cases hf : (ppu_result0 M s).new_frame = true
  · rcases hbo : block0Outcome res fok with _ | _ | _
    · rw [(hyes hf hbo).1, hst]
      simp
    · rw [hno (fun _ => by rw [hbo]; intro h; cases h)]
      exact hst
    · rw [hno (fun _ => by rw [hbo]; intro h; cases h)]
      exact hst
  · rw [hno (fun h => absurd h hf)]
    exact hst

/-! ## Witnesses: the claim theorems applied at concrete machines -/

/-- Witness for C1 at the machine M0 (a new frame every iteration, input
Continue) and iteration 0. -/
theorem C1_steady_state_order_witness :
    ∃ (res : InputResult) (fok : Bool),
      (iter M0 true (initState M0)).events =
        [Ev.cpuStep 0, Ev.cpuStep 1,
         Ev.ppuStep 0 (stepped0 M0 (initState M0)).view.cy (ppu_result0 M0 (initState M0))]
        ++ intEvs 0 (ppu_result0 M0 (initState M0))
        ++ [Ev.ppuStep 1 (stepped1 M0 (initState M0)).view.cy (ppu_result1 M0 (initState M0))]
        ++ intEvs 1 (ppu_result1 M0 (initState M0))
        ++ [Ev.apuStep 0 (dispatched0 M0 (initState M0)).cy,
            Ev.apuStep 1 (dispatched1 M0 (initState M0)).cy]
        ++ (if (ppu_result0 M0 (initState M0)).new_frame then
              frame0Evs true res fok
              ++ (if block0Outcome res fok = Outcome.next
                    ∧ (ppu_result1 M0 (initState M0)).new_frame
                  then [Ev.recordFps 1] else [])
            else if (ppu_result1 M0 (initState M0)).new_frame then [Ev.recordFps 1] else [])
      ∧ (iter M0 true (initState M0)).outcome =
          iterOutcome (ppu_result0 M0 (initState M0)) (ppu_result1 M0 (initState M0))
            res fok :=
  C1_steady_state_order M0 0 (initState M0) rfl

/-- Witness for C2 at the machine M0 and iteration 0. -/
theorem C2_interrupt_dispatch_witness :
    Ev.ppuStep 0 (stepped0 M0 (initState M0)).view.cy (ppu_result0 M0 (initState M0))
      ∈ (iter M0 true (initState M0)).events :=
  (C2_interrupt_dispatch M0 true 0 (initState M0) rfl).1

/-- Witness for the amended C3 at the machine Mbad (SaveState input, failing
file operations) and iteration 0: the save-state frame panics without a
status-line report. -/
theorem C3_amended_save_load_witness :
    (iter Mbad true (initState Mbad)).outcome = Outcome.panicked
    ∧ (iter Mbad true (initState Mbad)).events.countP Ev.isStatusSet = 0 := by
  obtain ⟨res, fok, hmem, hsf, _, _, _, hbad, _⟩ :=
    C3_amended_save_load Mbad true 0 (initState Mbad) rfl rfl
  have hres : res = InputResult.SaveState := by
    rcases res with _ | _ | _ | _
    · exact absurd hmem (by decide)
    · exact absurd hmem (by decide)
    · rfl
    · exact absurd hmem (by decide)
  subst hres
  exact hsf rfl (hbad (fun w => rfl) rfl)

/-- Witness for C4 at the machine Mquit (input Quit) and iteration 0. -/
theorem C4_exit_only_on_quit_witness :
    (iter Mquit true (initState Mquit)).outcome = Outcome.exited ↔
      Ev.checkInput InputResult.Quit ∈ (iter Mquit true (initState Mquit)).events :=
  (C4_exit_only_on_quit Mquit true 0 (initState Mquit) rfl).1

/-- Witness for C5 at the machine M0 and iteration 0: the new frame makes
exactly one tick of the first graphics sink. -/
theorem C5_frame_actions_witness :
    (iter M0 true (initState M0)).events.countP Ev.isGfxTick0 = 1 := by
  obtain ⟨res, h1, _⟩ :=
    C5_frame_actions M0 true 0 (initState M0) rfl (fun w => ⟨rfl, rfl⟩)
  exact (h1 rfl).1

/-- Witness for C6 at the machine M0 and iteration 0. -/
theorem C6_apu_step_placement_witness :
    Ev.apuStep 0 (dispatched0 M0 (initState M0)).cy ∈ (iter M0 true (initState M0)).events := by
  obtain ⟨res, fok, he, _⟩ := C6_apu_step_placement M0 0 (initState M0) rfl
  rw [he]
  simp

/-- Witness for C7 at the machine M0 and iteration 0. -/
theorem C7_cycle_snapshot_witness :
    (iter M0 true (initState M0)).events.head? = some (Ev.cpuStep 0) := by
  obtain ⟨tail, he, _, _, _⟩ :=
    C7_cycle_snapshot_and_interrupt_delivery M0 true 0 (initState M0) rfl
  rw [he]
  rfl

/-- Witness for the amended C10 at the machine M0 and iteration 0. -/
theorem C10_amended_started_feed_witness :
    (initState M0).started = false
    ∧ ((initState M0).started = true → (iter M0 true (initState M0)).state.started = true) := by
  obtain ⟨h1, h2, _⟩ := C10_amended_started_feed M0 true 0 (initState M0) rfl
  exact ⟨h1, h2⟩

end SprocketNes
